import Mathlib

/-!
Verification of the workflow-orchestration core of the
`theological-langgraph-agent` repository.

The Python sources are shallowly embedded:

* Python `dict` values are modelled as association lists (`PyDict`),
  with Python dict equality (`==`) modelled as extensional lookup
  equality (`pyDictEqb`), since Python dicts compare by key/value sets
  irrespective of insertion order.
* `None`-able Python values are `Option`s; Python truthiness of an
  optional string (`if s:`) is `pyTruthyStr`.
* The database tables (`analysis_cache`, `analysis_runs`,
  `hitl_reviews`) are modelled as association lists keyed by their
  unique key, and each SQL statement is modelled as a pure state
  transition on those lists. A `fail` flag per storage operation models
  the branch where the underlying statement raises: the modelled
  transition follows the source's `try`/`except` structure in that case.
* External collaborators (the LLM generation service, SMTP, `json.loads`
  inside `sanitize_llm_output`, wall-clock durations) are parameters of
  the embedding (`GenEnv`), exactly as the spec treats them: black boxes
  whose outputs are fed into the repository's own logic.
-/

namespace TheoAgent

/-! ## Python dict / list model (src/app/agent/agentState.py) -/

/-- A Python dict with `String` keys, as an association list. -/
abbrev PyDict (α : Type) := List (String × α)

/-- Python dict lookup `d.get(k)` / `d[k]` (keys are unique in a real
Python dict, so first-match lookup is faithful). -/
def dictGet {α : Type} (d : PyDict α) (k : String) : Option α :=
  match d with
  | [] => none
  | (k', v) :: rest => if k' = k then some v else dictGet rest k

/-- The keys of a Python dict. -/
def dictKeys {α : Type} (d : PyDict α) : List String := d.map Prod.fst

/-- Python `{**l, **r}`: `l`'s entries (value overridden by `r` on a
shared key), followed by `r`'s entries on fresh keys, in order. -/
def pyUnpackMerge {α : Type} (l r : PyDict α) : PyDict α :=
  l.map (fun p => (p.1, (dictGet r p.1).getD p.2))
    ++ r.filter (fun p => (dictGet l p.1).isNone)

/-- `_merge_dicts` (agentState.py lines 4–6):
`return {**(left or {}), **(right or {})}`. -/
def mergeDicts {α : Type} (left right : Option (PyDict α)) : PyDict α :=
  pyUnpackMerge (left.getD []) (right.getD [])

/-- `_concat_lists` (agentState.py lines 9–11):
`return (left or []) + (right or [])`. -/
def concatLists {α : Type} (left right : Option (List α)) : List α :=
  left.getD [] ++ right.getD []

/-- Python `==` on dicts: equal key sets with equal values (insertion
order is irrelevant), as a decidable check over both key lists. -/
def pyDictEqb {α : Type} [DecidableEq α] (a b : PyDict α) : Bool :=
  (dictKeys a ++ dictKeys b).all (fun k => dictGet a k = dictGet b k)

/-- Decidable key-disjointness of two dict contributions (each parallel
node contributes its own key, so branch contributions are disjoint). -/
def dictDisjointb {α : Type} (a b : PyDict α) : Bool :=
  (dictKeys a).all (fun k => (dictGet b k).isNone)

/-! ## Normalization helpers for the cache key
(src/app/service/cache_service.py, `generate_cache_key`) -/

/-- Python `str.isspace` code points (the set stripped by `str.strip()`). -/
def pyIsSpace (c : Char) : Bool :=
  c.toNat ∈ [0x09, 0x0a, 0x0b, 0x0c, 0x0d, 0x1c, 0x1d, 0x1e, 0x1f, 0x20,
             0x85, 0xa0, 0x1680, 0x2000, 0x2001, 0x2002, 0x2003, 0x2004,
             0x2005, 0x2006, 0x2007, 0x2008, 0x2009, 0x200a, 0x2028,
             0x2029, 0x202f, 0x205f, 0x3000]

/-- Python `str.strip()` on the underlying character list. -/
def pyStripL (l : List Char) : List Char :=
  ((l.dropWhile pyIsSpace).reverse.dropWhile pyIsSpace).reverse

/-- Python `str.lower()` per character. In the Basic Latin and Latin-1
Supplement blocks (U+0000–U+00FF) Python lowercases exactly `A`–`Z` and
`À`–`Þ` minus the multiplication sign `×` (U+00D7), each by adding 0x20,
and maps every other code point of the block (digits, punctuation, `ß`,
`µ`, the already-lowercase letters) to itself; this definition reproduces
that exactly, so it is exact on the whole alphabet the API's book
validator admits (schemas.py line 52, regex ^[a-zA-ZÀ-ÿ0-9]+$) and on
every whitespace code point (all of which lower to themselves).
Code points above U+00FF are kept unchanged. -/
def pyLowerChar (c : Char) : Char :=
  if ('A' ≤ c ∧ c ≤ 'Z')
      ∨ (0xc0 ≤ c.toNat ∧ c.toNat ≤ 0xde ∧ c.toNat ≠ 0xd7) then
    Char.ofNat (c.toNat + 32)
  else c

/-- Python `str.lower()` on the underlying character list. -/
def pyLowerL (l : List Char) : List Char := l.map pyLowerChar

/-- `book.strip().lower()` — the normalized book identifier. -/
def cacheNormBook (book : String) : List Char := pyLowerL (pyStripL book.data)

/-- Membership in the book alphabet admitted by the API's request
validator (schemas.py line 52, `sanitize_book`: regex ^[a-zA-ZÀ-ÿ0-9]+$).
Every book `generate_cache_key` receives from the service passed this
validator, and on this alphabet `pyLowerChar` agrees with Python's
`str.lower()` character for character. -/
def bookCharOk (c : Char) : Bool :=
  ('a' ≤ c && c ≤ 'z') || ('A' ≤ c && c ≤ 'Z')
    || ('0' ≤ c && c ≤ '9') || (0xc0 ≤ c.toNat && c.toNat ≤ 0xff)

/-- Python `sorted` on ints (ascending; the sorted result is unique, so a
stable insertion sort coincides with CPython's timsort). -/
def pySortInts (l : List Int) : List Int := l.insertionSort (· ≤ ·)

/-- Python `sorted` on strings (code-point lexicographic, as in Lean). -/
def pySortStrs (l : List String) : List String := l.insertionSort (· ≤ ·)

/-! ## JSON serialization (Python `json.dumps`, default options:
`ensure_ascii=True`, separators `(", ", ": ")`, here with
`sort_keys=True` as the call site requests) -/

/-- Lowercase hex digit, as `"%04x"` produces. -/
def hexDigit (n : Nat) : Char :=
  if n < 10 then Char.ofNat (48 + n) else Char.ofNat (87 + n)

/-- Four lowercase hex digits of `n < 0x10000`. -/
def hex4 (n : Nat) : List Char :=
  [hexDigit (n / 4096 % 16), hexDigit (n / 256 % 16),
   hexDigit (n / 16 % 16), hexDigit (n % 16)]

/-- A `\uXXXX` escape. -/
def escU (n : Nat) : List Char := '\\' :: 'u' :: hex4 n

/-- `json.dumps` escaping of one character (`ensure_ascii=True`: every
character outside printable ASCII is `\u`-escaped, astral characters as a
surrogate pair). -/
def jsonEscChar (c : Char) : List Char :=
  if c = '"' then ['\\', '"']
  else if c = '\\' then ['\\', '\\']
  else if c = Char.ofNat 8 then ['\\', 'b']
  else if c = '\t' then ['\\', 't']
  else if c = '\n' then ['\\', 'n']
  else if c = Char.ofNat 12 then ['\\', 'f']
  else if c = '\r' then ['\\', 'r']
  else if c.toNat < 0x20 then escU c.toNat
  else if c.toNat < 0x7f then [c]
  else if c.toNat ≤ 0xffff then escU c.toNat
  else escU (0xd800 + (c.toNat - 0x10000) / 0x400)
         ++ escU (0xdc00 + (c.toNat - 0x10000) % 0x400)

/-- `json.dumps` escaping of a string body (without the quotes). -/
def jsonEscStr (l : List Char) : List Char := l.flatMap jsonEscChar

/-- A serialized JSON string, quotes included. -/
def jsonStr (l : List Char) : List Char := '"' :: jsonEscStr l ++ ['"']

/-- Decimal digit character. -/
def decDigit (n : Nat) : Char := Char.ofNat (48 + n)

/-- Decimal representation, most significant digit first; `fuel` bounds
the recursion depth (any `fuel > n` is exact). -/
def natReprAux : Nat → Nat → List Char
  | 0, _ => []
  | fuel + 1, n =>
    if n < 10 then [decDigit n]
    else natReprAux fuel (n / 10) ++ [decDigit (n % 10)]

/-- Decimal representation of a natural number, most significant first
(Python `repr` of a non-negative int). -/
def natRepr (n : Nat) : List Char := natReprAux (n + 1) n

/-- `json.dumps` of a Python int (its `repr`). -/
def intJson (i : Int) : List Char :=
  if i < 0 then '-' :: natRepr i.natAbs else natRepr i.natAbs

/-- Join serialized elements with a separator. -/
def joinSep (sep : List Char) : List (List Char) → List Char
  | [] => []
  | [x] => x
  | x :: y :: xs => x ++ sep ++ joinSep sep (y :: xs)

/-- `json.dumps` of a list of ints (default item separator `", "`). -/
def jsonIntList (l : List Int) : List Char :=
  '[' :: joinSep [',', ' '] (l.map intJson) ++ [']']

/-- `json.dumps` of a list of strings. -/
def jsonStrList (l : List String) : List Char :=
  '[' :: joinSep [',', ' '] (l.map (fun s => jsonStr s.data)) ++ [']']

/-- The canonical serialization hashed by `generate_cache_key`
(cache_service.py lines 26–34): `json.dumps` with `sort_keys=True` of
`{"book": book.strip().lower(), "chapter": chapter,
"verses": sorted(verses), "modules": sorted(modules)}` — keys emitted in
sorted order `book, chapter, modules, verses`. -/
def cacheKeyPayloadL (book : String) (chapter : Int) (verses : List Int)
    (modules : List String) : List Char :=
  ("\x7b\"book\": \"" : String).data
    ++ jsonEscStr (cacheNormBook book)
    ++ ("\", \"chapter\": " : String).data
    ++ intJson chapter
    ++ (", \"modules\": " : String).data
    ++ jsonStrList (pySortStrs modules)
    ++ (", \"verses\": " : String).data
    ++ jsonIntList (pySortInts verses)
    ++ ("\x7d" : String).data

/-- `generate_cache_key` (cache_service.py lines 18–36). The SHA-256 hex
digest is a stdlib call, kept as the parameter `sha256hex` applied to the
canonical serialization. -/
def generate_cache_key (sha256hex : String → String) (book : String)
    (chapter : Int) (verses : List Int) (modules : List String) : String :=
  sha256hex ⟨cacheKeyPayloadL book chapter verses modules⟩

/-! ### A partial inverse of the serialization, used to show that the
canonical serializations of requests differing in a scalar field differ. -/

/-- Consume an exact prefix. -/
def dropExact : List Char → List Char → Option (List Char)
  | [], l => some l
  | _ :: _, [] => none
  | p :: ps, c :: cs => if c = p then dropExact ps cs else none

/-- Value of a lowercase hex digit. -/
def hexVal (c : Char) : Option Nat :=
  if 48 ≤ c.toNat ∧ c.toNat ≤ 57 then some (c.toNat - 48)
  else if 97 ≤ c.toNat ∧ c.toNat ≤ 102 then some (c.toNat - 87)
  else none

/-- Read four hex digits. -/
def readHex4 : List Char → Option (Nat × List Char)
  | a :: b :: c :: d :: rest =>
    match hexVal a, hexVal b, hexVal c, hexVal d with
    | some va, some vb, some vc, some vd =>
      some (((va * 16 + vb) * 16 + vc) * 16 + vd, rest)
    | _, _, _, _ => none
  | _ => none

/-- Decode a `\\uXXXX` escape (with a following low surrogate when the
first code unit is a high surrogate). -/
def decodeU (l : List Char) : Option (Char × List Char) :=
  match readHex4 l with
  | none => none
  | some (n, rest3) =>
    if 0xd800 ≤ n ∧ n ≤ 0xdbff then
      match rest3 with
      | c1 :: c2 :: rest4 =>
        if c1 = '\\' ∧ c2 = 'u' then
          match readHex4 rest4 with
          | none => none
          | some (m, rest5) =>
            if 0xdc00 ≤ m ∧ m ≤ 0xdfff then
              some (Char.ofNat (0x10000 + (n - 0xd800) * 0x400 + (m - 0xdc00)),
                rest5)
            else none
        else none
      | _ => none
    else some (Char.ofNat n, rest3)

/-- Decode one escape sequence after a backslash. -/
def decodeEsc (l : List Char) : Option (Char × List Char) :=
  match l with
  | [] => none
  | e :: rest2 =>
    if e = '"' then some ('"', rest2)
    else if e = '\\' then some ('\\', rest2)
    else if e = 'b' then some (Char.ofNat 8, rest2)
    else if e = 't' then some ('\t', rest2)
    else if e = 'n' then some ('\n', rest2)
    else if e = 'f' then some (Char.ofNat 12, rest2)
    else if e = 'r' then some ('\r', rest2)
    else if e = 'u' then decodeU rest2
    else none

/-- Decode a JSON-escaped string up to its closing quote, returning the
decoded characters and the remaining input. `fuel` bounds the number of
decoded characters. -/
def jsonUnesc (fuel : Nat) (l : List Char) : Option (List Char × List Char) :=
  match fuel, l with
  | _, [] => none
  | 0, _ => none
  | fuel + 1, c :: rest =>
    if c = '"' then some ([], rest)
    else if c = '\\' then
      match decodeEsc rest with
      | none => none
      | some (ch, rest2) =>
        (jsonUnesc fuel rest2).map (fun p => (ch :: p.1, p.2))
    else (jsonUnesc fuel rest).map (fun p => (c :: p.1, p.2))

/-- Longest digit prefix and the rest. -/
def splitDigits : List Char → List Char × List Char
  | [] => ([], [])
  | c :: cs =>
    if 48 ≤ c.toNat ∧ c.toNat ≤ 57 then
      let p := splitDigits cs
      (c :: p.1, p.2)
    else ([], c :: cs)

/-- Numeric value of a digit list. -/
def digitsToNat (l : List Char) : Nat :=
  l.foldl (fun a c => a * 10 + (c.toNat - 48)) 0

/-- Read a (possibly negative) decimal integer from the head of the input. -/
def readIntHead (l : List Char) : Option (Int × List Char) :=
  match l with
  | [] => none
  | c :: rest =>
    if c = '-' then
      match splitDigits rest with
      | ([], _) => none
      | (ds, r) => some (-(digitsToNat ds : Int), r)
    else
      match splitDigits (c :: rest) with
      | ([], _) => none
      | (ds, r) => some ((digitsToNat ds : Int), r)

/-- Recover the normalized book and the chapter from a canonical
serialization. -/
def parseBookChapter (l : List Char) : Option (List Char × Int) := do
  let r1 ← dropExact ("\x7b\"book\": \"" : String).data l
  let (book, r2) ← jsonUnesc r1.length r1
  let r3 ← dropExact (", \"chapter\": " : String).data r2
  let (c, _) ← readIntHead r3
  pure (book, c)

/-! ## Python value helpers -/

/-- Python truthiness of an optional string (`if s:`): `None` and `""`
are falsy. -/
def pyTruthyStr : Option String → Bool
  | none => false
  | some s => s != ""

/-- Python `a or b` on optional strings. -/
def pyOrStr (a b : Option String) : Option String :=
  if pyTruthyStr a then a else b

/-- `json.dumps(d) if d else None` for an optional dict argument (an
empty dict is falsy and stored as SQL NULL). -/
def jsonbDict {α : Type} (d : Option (PyDict α)) : Option (PyDict α) :=
  match d with
  | some x => if x.isEmpty then none else some x
  | none => none

/-- `json.dumps(l) if l else None` for an optional list argument. -/
def jsonbList {α : Type} (d : Option (List α)) : Option (List α) :=
  match d with
  | some x => if x.isEmpty then none else some x
  | none => none

/-- SQL `INSERT ... ON CONFLICT (key) DO NOTHING` on a keyed table. -/
def insertIfAbsent {α : Type} (db : PyDict α) (k : String) (v : α) :
    PyDict α :=
  if (dictGet db k).isSome then db else db ++ [(k, v)]

/-- SQL `UPDATE ... WHERE key = k` replacing the row at `k`. -/
def dictSet {α : Type} (db : PyDict α) (k : String) (v : α) : PyDict α :=
  db.map (fun p => if p.1 = k then (k, v) else p)

/-- Python `str(i)` for an int. -/
def pyStrOfInt (i : Int) : String := ⟨intJson i⟩

/-- Python `int(s)` on the decimal strings produced by `str(int)` (the
only inputs it receives in the embedded flows; `int()` raises on other
strings). -/
def strToInt (s : String) : Int :=
  ((readIntHead s.data).map Prod.fst).getD 0

/-- Substring test (Python `needle in hay`). -/
def strContains (hay needle : String) : Bool :=
  hay.data.tails.any (fun t => needle.data.isPrefixOf t)

/-- Python `str.replace`: left-to-right, non-overlapping; `fuel` bounds
the scan (the input length is always enough). -/
def pyReplaceFuel (pat rep : List Char) : Nat → List Char → List Char
  | 0, l => l
  | _, [] => []
  | fuel + 1, c :: cs =>
    if pat ≠ [] ∧ pat.isPrefixOf (c :: cs) then
      rep ++ pyReplaceFuel pat rep fuel ((c :: cs).drop pat.length)
    else c :: pyReplaceFuel pat rep fuel cs

/-- Python `s.replace(pat, rep)` (for a non-empty pattern). -/
def pyReplace (s pat rep : String) : String :=
  ⟨pyReplaceFuel pat.data rep.data s.data.length s.data⟩

/-! ## Model tiers (src/app/client/client.py lines 14–19) -/

namespace ModelTier

def LITE : String := "gemini-2.5-flash-lite"

def FLASH : String := "gemini-2.5-flash"

def TOP : String := "gemini-3-flash-preview"

end ModelTier

/-! ## Workflow state (src/app/agent/agentState.py, `TheologicalState`) -/

/-- A token-usage record (`extract_token_usage` output,
`{"input": n, "output": m}`). -/
structure Usage where
  input : Nat
  output : Nat
deriving DecidableEq

/-- One `reasoning_steps` entry (`_build_node_result`, build.py lines
157–164); the validator adds `risk_level` and `alerts` via
`extra_reasoning`. -/
structure Step where
  node : String
  model : String
  tokens : Usage
  duration_ms : Nat
  risk_level : Option String := none
  alerts : Option (List String) := none
deriving DecidableEq

/-- `TheologicalState`. Every key is present (optional values are
`Option`); the three accumulator fields carry the reducer annotations
`_merge_dicts` / `_concat_lists` honoured by `applyUpdate` below. -/
structure GState where
  bible_book : String
  chapter : Int
  verses : List String
  selected_modules : List String
  panorama_content : Option String
  lexical_content : Option String
  historical_content : Option String
  intertextual_content : Option String
  validation_content : Option String
  final_analysis : Option String
  run_id : Option String
  created_at : Option String
  model_versions : PyDict String
  tokens_consumed : PyDict Usage
  reasoning_steps : List Step
  risk_level : Option String
  hitl_status : Option String
deriving DecidableEq

/-- A partial state update returned by a node (the dict built by
`_build_node_result`): `some` marks a key present in the returned dict. -/
structure GUpdate where
  panorama_content : Option String := none
  lexical_content : Option String := none
  historical_content : Option String := none
  intertextual_content : Option String := none
  validation_content : Option String := none
  final_analysis : Option String := none
  model_versions : PyDict String := []
  tokens_consumed : PyDict Usage := []
  reasoning_steps : List Step := []
  risk_level : Option String := none
  hitl_status : Option String := none
deriving DecidableEq

/-- Channel write for a plain (last-value) state key: a key present in
the update replaces the stored value. -/
def updField {α : Type} (u old : Option α) : Option α :=
  match u with
  | some v => some v
  | none => old

/-- Application of one node's partial update to the state, following the
`TheologicalState` channel annotations: plain keys are replaced when
written, the accumulator keys are merged with `_merge_dicts` /
`_concat_lists` (existing value on the left, contribution on the right). -/
def applyUpdate (s : GState) (u : GUpdate) : GState :=
  { s with
    panorama_content := updField u.panorama_content s.panorama_content
    lexical_content := updField u.lexical_content s.lexical_content
    historical_content := updField u.historical_content s.historical_content
    intertextual_content := updField u.intertextual_content s.intertextual_content
    validation_content := updField u.validation_content s.validation_content
    final_analysis := updField u.final_analysis s.final_analysis
    model_versions := mergeDicts (some s.model_versions) (some u.model_versions)
    tokens_consumed := mergeDicts (some s.tokens_consumed) (some u.tokens_consumed)
    reasoning_steps := concatLists (some s.reasoning_steps) (some u.reasoning_steps)
    risk_level := updField u.risk_level s.risk_level
    hitl_status := updField u.hitl_status s.hitl_status }

/-! ## External generation service (black box per the spec):
per-node outputs, the `json.loads`-based unwrapping inside
`sanitize_llm_output`, and the SHA-256 digest are parameters. -/

/-- Output of one generation call: text, token usage and wall-clock
duration. -/
structure GenOut where
  content : String
  usage : Usage
  duration_ms : Nat

/-- Structured validator output (`ValidatorOutput`): content plus
`risk_level` and `alerts`. -/
structure ValidatorOut where
  content : String
  risk_level : String
  alerts : List String
  usage : Usage
  duration_ms : Nat

/-- The external collaborators of one run. `jsonConf c` models
`json.loads(c).get("content", c)` inside `sanitize_llm_output`: `some e`
when parsing succeeded and produced `e`, `none` when it raised. -/
structure GenEnv where
  sha256hex : String → String
  jsonConf : String → Option String
  panorama : GenOut
  lexical : GenOut
  historical : GenOut
  intertextual : GenOut
  validator : ValidatorOut
  synthesizer : GenOut

/-- `sanitize_llm_output` (build.py lines 46–66). The source guards the
replace with `if "\\n" in content:`; `replace` is the identity when the
pattern is absent, so the guard is behaviorally redundant. -/
def sanitize_llm_output (jsonConf : String → Option String)
    (content : String) : String :=
  let c := pyReplace content "\\n" "\n"
  if (pyStripL c.data).head? = some '{' && strContains c "\"content\":" then
    match jsonConf c with
    | some extracted => extracted
    | none => c
  else c

/-- The governance part of `_build_node_result` (build.py lines 101–177):
singleton `model_versions` and `tokens_consumed` contributions plus one
`reasoning_steps` entry, all keyed by the node name. -/
def baseNodeResult (node_name model_name : String) (content : String)
    (usage : Usage) (duration_ms : Nat) : GUpdate :=
  let _ := content
  { model_versions := [(node_name, model_name)],
    tokens_consumed := [(node_name, usage)],
    reasoning_steps := [{ node := node_name, model := model_name,
                          tokens := usage, duration_ms := duration_ms }] }

/-- `panorama_node` (build.py lines 282–306). -/
def panorama_node (env : GenEnv) (_s : GState) : GUpdate :=
  let content := sanitize_llm_output env.jsonConf env.panorama.content
  { baseNodeResult "panorama_agent" ModelTier.LITE content
      env.panorama.usage env.panorama.duration_ms with
    panorama_content := some content }

/-- `lexical_node` (build.py lines 309–337). After the generation call
the node evaluates `ModelTier.FAST`, an attribute the `ModelTier` class
never defines (client.py lines 14–19), so the node raises
`AttributeError` and the branch fails. -/
def lexical_node (_env : GenEnv) (_s : GState) : Except String GUpdate :=
  .error "AttributeError: type object 'ModelTier' has no attribute 'FAST'"

/-- `historical_node` (build.py lines 340–368): fails like
`lexical_node`, for the same `ModelTier.FAST` reason. -/
def historical_node (_env : GenEnv) (_s : GState) :
    Except String GUpdate :=
  .error "AttributeError: type object 'ModelTier' has no attribute 'FAST'"

/-- `intertextual_node` (build.py lines 371–399). -/
def intertextual_node (env : GenEnv) (_s : GState) : GUpdate :=
  let content := sanitize_llm_output env.jsonConf env.intertextual.content
  { baseNodeResult "intertextual_agent" ModelTier.LITE content
      env.intertextual.usage env.intertextual.duration_ms with
    intertextual_content := some content }

/-- `theological_validator_node` (build.py lines 405–443): writes
`validation_content`, sets `risk_level` via `extra_fields` and records
`risk_level`/`alerts` in its reasoning entry via `extra_reasoning`. -/
def theological_validator_node (env : GenEnv) (_s : GState) : GUpdate :=
  let content := sanitize_llm_output env.jsonConf env.validator.content
  { validation_content := some content,
    risk_level := some env.validator.risk_level,
    model_versions := [("theological_validator", ModelTier.TOP)],
    tokens_consumed := [("theological_validator", env.validator.usage)],
    reasoning_steps := [{ node := "theological_validator",
                          model := ModelTier.TOP,
                          tokens := env.validator.usage,
                          duration_ms := env.validator.duration_ms,
                          risk_level := some env.validator.risk_level,
                          alerts := some env.validator.alerts }] }

/-- `synthesizer_node` (build.py lines 503–535). -/
def synthesizer_node (env : GenEnv) (_s : GState) : GUpdate :=
  let content := sanitize_llm_output env.jsonConf env.synthesizer.content
  { baseNodeResult "synthesizer" ModelTier.TOP content
      env.synthesizer.usage env.synthesizer.duration_ms with
    final_analysis := some content }

/-- `join_node` (build.py lines 541–554): a pure passthrough returning
`{}`. -/
def join_node (_s : GState) : GUpdate := {}

/-- `router_function` (build.py lines 230–257): always sends to the
intertextual agent, then appends one `Send` per selected optional
module, in source order. -/
def router_function (s : GState) : List String :=
  let sends := ["intertextual_agent"]
  let sends :=
    if "panorama" ∈ s.selected_modules then sends ++ ["panorama_agent"]
    else sends
  let sends :=
    if "exegese" ∈ s.selected_modules then sends ++ ["lexical_agent"]
    else sends
  let sends :=
    if "historical" ∈ s.selected_modules then sends ++ ["historical_agent"]
    else sends
  sends

/-- `route_after_validation` (build.py lines 263–276). The source reads
`state.get("risk_level", "low")`; the key is always present in
`TheologicalState` (possibly `None`), and any value other than `"high"`
— including `None` and the absent-key default `"low"` — routes to the
synthesizer. -/
def route_after_validation (s : GState) : String :=
  if s.risk_level = some "high" then "hitl_pending" else "synthesizer"

/-- Dispatch of a `Send` target to its node, as wired by `build_graph`
(build.py lines 183–224); a failing node aborts the run. -/
def nodeUpdateE (env : GenEnv) (s : GState) : String → Except String GUpdate
  | "panorama_agent" => .ok (panorama_node env s)
  | "lexical_agent" => lexical_node env s
  | "historical_agent" => historical_node env s
  | "intertextual_agent" => .ok (intertextual_node env s)
  | _ => .ok {}

/-- The fan-out superstep: every dispatched branch reads the immutable
snapshot `s0`, and the partial updates are merged into the state in
completion order (`order`). A branch failure aborts the run. Modelled
from LangGraph's documented superstep/reducer semantics, which the spec
describes as the executor contract. -/
def runBranchesAux (env : GenEnv) (s0 : GState) :
    List String → GState → Except String GState
  | [], s => .ok s
  | n :: rest, s =>
    match nodeUpdateE env s0 n with
    | .error e => .error e
    | .ok u => runBranchesAux env s0 rest (applyUpdate s u)

def runBranches (env : GenEnv) (s0 : GState) (order : List String) :
    Except String GState :=
  runBranchesAux env s0 order s0

/-! ## Database tables and services -/

/-- One `analysis_cache` row (`hit_count` defaults to 0 on insert,
migration 0001). -/
structure CacheEntry where
  book : String
  chapter : Int
  verses : List Int
  selected_modules : List String
  final_analysis : String
  run_id : Option String := none
  hit_count : Nat := 0
deriving DecidableEq

/-- One `analysis_runs` row. -/
structure AuditRow where
  run_id : String
  book : String
  chapter : Int
  verses : List Int
  selected_modules : List String
  model_versions : Option (PyDict String) := none
  prompt_versions : Option (PyDict String) := none
  tokens_consumed : Option (PyDict Usage) := none
  reasoning_steps : Option (List Step) := none
  risk_level : Option String := none
  hitl_status : Option String := none
  final_analysis : String := ""
  success : Bool
  error : Option String := none
  duration_ms : Option Nat := none
deriving DecidableEq

/-- One `hitl_reviews` row (`created_at`/`reviewed_at` timestamps are
external clock values). -/
structure ReviewRow where
  run_id : String
  book : String
  chapter : Int
  verses : List Int
  risk_level : Option String
  alerts : List String
  validation_content : Option String
  panorama_content : Option String := none
  lexical_content : Option String := none
  historical_content : Option String := none
  intertextual_content : Option String := none
  selected_modules : List String
  model_versions : Option (PyDict String) := none
  prompt_versions : Option (PyDict String) := none
  tokens_consumed : Option (PyDict Usage) := none
  reasoning_steps : Option (List Step) := none
  edited_content : Option String := none
  status : String := "pending"
  created_at : Option String := none
  reviewed_at : Option Nat := none
deriving DecidableEq

/-- The three persistence relations. -/
structure Dbs where
  cache : PyDict CacheEntry
  runs : PyDict AuditRow
  reviews : PyDict ReviewRow
deriving DecidableEq

/-- `get_cached_analysis` (cache_service.py lines 39–79):
`UPDATE ... SET hit_count = hit_count + 1 WHERE cache_key = %s RETURNING
final_analysis`; any storage error is caught (the transaction is not
committed) and the function returns `None`, indistinguishable from a
miss. -/
def get_cached_analysis (fail : Bool) (db : PyDict CacheEntry)
    (cache_key : String) : PyDict CacheEntry × Option String :=
  if fail then (db, none)
  else
    match dictGet db cache_key with
    | some e =>
      (dictSet db cache_key { e with hit_count := e.hit_count + 1 },
       some e.final_analysis)
    | none => (db, none)

/-- `save_to_cache` (cache_service.py lines 82–118):
`INSERT ... ON CONFLICT (cache_key) DO NOTHING`; any storage error is
caught and the function returns normally. -/
def save_to_cache (fail : Bool) (db : PyDict CacheEntry)
    (cache_key : String) (e : CacheEntry) : PyDict CacheEntry :=
  if fail then db else insertIfAbsent db cache_key e

/-- `save_run` (audit_service.py lines 17–93): an upsert keyed by
`run_id`; on conflict only `final_analysis`, `success`, `error`,
`hitl_status` and `duration_ms` are taken from the new row. Storage
errors are caught and never propagate. -/
def save_run (fail : Bool) (db : PyDict AuditRow) (r : AuditRow) :
    PyDict AuditRow :=
  if fail then db
  else
    let row := { r with model_versions := jsonbDict r.model_versions,
                        prompt_versions := jsonbDict r.prompt_versions,
                        tokens_consumed := jsonbDict r.tokens_consumed,
                        reasoning_steps := jsonbList r.reasoning_steps }
    match dictGet db r.run_id with
    | none => db ++ [(r.run_id, row)]
    | some old =>
      dictSet db r.run_id
        { old with final_analysis := r.final_analysis,
                   success := r.success,
                   error := r.error,
                   hitl_status := r.hitl_status,
                   duration_ms := r.duration_ms }

/-- `save_pending_review` (hitl_service.py lines 46–113):
`INSERT ... ON CONFLICT (run_id) DO NOTHING` with `status = 'pending'`;
a storage error is re-raised to the caller. -/
def save_pending_review (reviews : PyDict ReviewRow) (run_id : String)
    (book : String) (chapter : Int) (verses : List Int)
    (risk_level : Option String) (alerts : List String)
    (validation_content : Option String) (selected_modules : List String)
    (panorama_content lexical_content historical_content
      intertextual_content : Option String)
    (model_versions : Option (PyDict String))
    (tokens_consumed : Option (PyDict Usage))
    (reasoning_steps : Option (List Step)) : PyDict ReviewRow :=
  insertIfAbsent reviews run_id
    { run_id := run_id, book := book, chapter := chapter, verses := verses,
      risk_level := risk_level, alerts := alerts,
      validation_content := validation_content,
      panorama_content := panorama_content,
      lexical_content := lexical_content,
      historical_content := historical_content,
      intertextual_content := intertextual_content,
      selected_modules := selected_modules,
      model_versions := jsonbDict model_versions,
      tokens_consumed := jsonbDict tokens_consumed,
      reasoning_steps := jsonbList reasoning_steps,
      status := "pending" }

/-- `get_review` (hitl_service.py lines 151–198): returns the full row,
or `None` when missing or on a storage error. -/
def get_review (fail : Bool) (reviews : PyDict ReviewRow)
    (run_id : String) : Option ReviewRow :=
  if fail then none else dictGet reviews run_id

/-- `approve_review` (hitl_service.py lines 201–254):
`UPDATE hitl_reviews SET status, [edited_content,] reviewed_at = NOW()
WHERE run_id = %s AND status = 'pending' RETURNING run_id`; returns
`True` iff a row was updated; storage errors are caught and yield
`False` with the transaction not committed. `status` is `'edited'` iff
the override is truthy (a non-empty string). -/
def approve_review (fail : Bool) (now : Nat) (reviews : PyDict ReviewRow)
    (run_id : String) (edited_content : Option String) :
    PyDict ReviewRow × Bool :=
  if fail then (reviews, false)
  else
    let status := if pyTruthyStr edited_content then "edited" else "approved"
    match dictGet reviews run_id with
    | some r =>
      if r.status = "pending" then
        let r' :=
          if pyTruthyStr edited_content then
            { r with status := status, edited_content := edited_content,
                     reviewed_at := some now }
          else { r with status := status, reviewed_at := some now }
        (dictSet reviews run_id r', true)
      else (reviews, false)
    | none => (reviews, false)

/-- `get_validation_content_for_synthesis` (hitl_service.py lines
257–266): `review.get("edited_content") or
review.get("validation_content")`. -/
def get_validation_content_for_synthesis (fail : Bool)
    (reviews : PyDict ReviewRow) (run_id : String) : Option String :=
  match get_review fail reviews run_id with
  | none => none
  | some r => pyOrStr r.edited_content r.validation_content

/-- `send_hitl_notification` (email_service.py lines 19–115): an
external SMTP side effect; every failure path is caught and surfaces
only as the returned Bool, which the caller ignores. -/
def send_hitl_notification (smtpOk : Bool) : Bool := smtpOk

/-- `hitl_pending_node` (build.py lines 449–497): persists the pending
review (errors — including the `[-1]` IndexError on an empty
`reasoning_steps` — are caught and logged), fires the email
notification, and unconditionally returns `{"hitl_status": "pending"}`. -/
def hitl_pending_node (hitlSaveFail emailSmtpOk : Bool) (db : Dbs)
    (s : GState) : Dbs × GUpdate :=
  let run_id := s.run_id.getD "unknown"
  let verses_int := s.verses.map strToInt
  let reviews1 :=
    save_pending_review db.reviews run_id s.bible_book s.chapter
      verses_int s.risk_level
      (((s.reasoning_steps.getLast?).bind (·.alerts)).getD [])
      s.validation_content s.selected_modules
      s.panorama_content s.lexical_content s.historical_content
      s.intertextual_content (some s.model_versions)
      (some s.tokens_consumed) (some s.reasoning_steps)
  let db1 :=
    if s.reasoning_steps.isEmpty || hitlSaveFail then db
    else { db with reviews := reviews1 }
  let _ := send_hitl_notification emailSmtpOk
  (db1, { hitl_status := some "pending" })

/-- One `graph.invoke` of the compiled graph (build.py `build_graph`,
lines 183–224): router fan-out over the snapshot, join barrier,
validator, then the conditional edge to `hitl_pending` or `synthesizer`.
The branch merge order is the router's dispatch order. -/
def runGraph (env : GenEnv) (hitlSaveFail emailSmtpOk : Bool) (db : Dbs)
    (s0 : GState) : Except String (Dbs × GState) :=
  match runBranches env s0 (router_function s0) with
  | .error e => .error e
  | .ok pre =>
    let pre := applyUpdate pre (join_node pre)
    let postV := applyUpdate pre (theological_validator_node env pre)
    if route_after_validation postV = "hitl_pending" then
      let r := hitl_pending_node hitlSaveFail emailSmtpOk db postV
      .ok (r.1, applyUpdate postV r.2)
    else .ok (db, applyUpdate postV (synthesizer_node env postV))

/-! ## Analysis service (src/app/service/analysis_service.py) -/

/-- `AnalysisInput`. -/
structure AnalysisInput where
  book : String
  chapter : Int
  verses : List Int
  selected_modules : List String
deriving DecidableEq

/-- `AnalysisResult` (wall-clock `duration_ms` is external and left
out). -/
structure AnalysisResult where
  final_analysis : String
  success : Bool
  error : Option String := none
  from_cache : Bool := false
  run_id : Option String := none
  risk_level : Option String := none
  hitl_status : Option String := none
deriving DecidableEq

/-- `MODULE_MAPPING` (analysis_service.py lines 30–34). -/
def MODULE_MAPPING : PyDict String :=
  [("panorama", "panorama"), ("exegese", "exegese"),
   ("teologia", "historical")]

/-- `prepare_agent_state` (analysis_service.py lines 64–100). -/
def prepare_agent_state (inp : AnalysisInput) (run_id created_at : String) :
    GState :=
  { bible_book := inp.book, chapter := inp.chapter,
    verses := inp.verses.map pyStrOfInt,
    selected_modules :=
      inp.selected_modules.map (fun m => (dictGet MODULE_MAPPING m).getD m),
    panorama_content := none, lexical_content := none,
    historical_content := none, intertextual_content := none,
    validation_content := none, final_analysis := none,
    run_id := some run_id, created_at := some created_at,
    model_versions := [], tokens_consumed := [], reasoning_steps := [],
    risk_level := none, hitl_status := none }

/-- The per-run storage/side-effect environment: which storage
operations fail and whether SMTP delivery succeeds. -/
structure RunFlags where
  cacheReadFail : Bool := false
  cacheWriteFail : Bool := false
  auditFail : Bool := false
  hitlSaveFail : Bool := false
  emailSmtpOk : Bool := true

/-- `run_analysis` (analysis_service.py lines 103–312): cache check,
graph execution, HITL-pending handling, cache write and audit write.
`run_id` (a fresh UUID) and `created_at` are external inputs. -/
def run_analysis (env : GenEnv) (fl : RunFlags) (db : Dbs)
    (inp : AnalysisInput) (run_id created_at : String) :
    Dbs × AnalysisResult :=
  let cache_key := generate_cache_key env.sha256hex inp.book inp.chapter
    inp.verses inp.selected_modules
  let rc := get_cached_analysis fl.cacheReadFail db.cache cache_key
  let db := { db with cache := rc.1 }
  match rc.2 with
  | some cached =>
    let hitRow : AuditRow :=
      { run_id := run_id, book := inp.book, chapter := inp.chapter,
        verses := inp.verses, selected_modules := inp.selected_modules,
        success := true, final_analysis := cached }
    let db := { db with runs := save_run fl.auditFail db.runs hitRow }
    (db, { final_analysis := cached, success := true, from_cache := true,
           run_id := some run_id })
  | none =>
    let s0 := prepare_agent_state inp run_id created_at
    match runGraph env fl.hitlSaveFail fl.emailSmtpOk db s0 with
    | .error e =>
      let errRow : AuditRow :=
        { run_id := run_id, book := inp.book, chapter := inp.chapter,
          verses := inp.verses, selected_modules := inp.selected_modules,
          success := false, error := some e }
      let db := { db with runs := save_run fl.auditFail db.runs errRow }
      (db, { final_analysis := "", success := false, error := some e,
             run_id := some run_id })
    | .ok (db2, fs) =>
      if fs.hitl_status = some "pending" then
        let pendRow : AuditRow :=
          { run_id := run_id, book := inp.book, chapter := inp.chapter,
            verses := inp.verses, selected_modules := inp.selected_modules,
            success := true, hitl_status := some "pending",
            risk_level := fs.risk_level,
            model_versions := some fs.model_versions,
            tokens_consumed := some fs.tokens_consumed,
            reasoning_steps := some fs.reasoning_steps }
        let db3 := { db2 with runs := save_run fl.auditFail db2.runs pendRow }
        (db3, { final_analysis := "", success := true,
                run_id := some run_id, risk_level := fs.risk_level,
                hitl_status := some "pending" })
      else if pyTruthyStr fs.final_analysis then
        let final := fs.final_analysis.getD ""
        let entry : CacheEntry :=
          { book := inp.book, chapter := inp.chapter, verses := inp.verses,
            selected_modules := inp.selected_modules,
            final_analysis := final, run_id := some run_id }
        let cache3 := save_to_cache fl.cacheWriteFail db2.cache cache_key entry
        let okRow : AuditRow :=
          { run_id := run_id, book := inp.book, chapter := inp.chapter,
            verses := inp.verses, selected_modules := inp.selected_modules,
            success := true, final_analysis := final,
            model_versions := some fs.model_versions,
            tokens_consumed := some fs.tokens_consumed,
            reasoning_steps := some fs.reasoning_steps,
            risk_level := fs.risk_level, hitl_status := fs.hitl_status }
        let runs4 := save_run fl.auditFail db2.runs okRow
        let db4 := { db2 with cache := cache3, runs := runs4 }
        (db4, { final_analysis := final, success := true,
                run_id := some run_id, risk_level := fs.risk_level,
                hitl_status := fs.hitl_status })
      else
        let noneRow : AuditRow :=
          { run_id := run_id, book := inp.book, chapter := inp.chapter,
            verses := inp.verses, selected_modules := inp.selected_modules,
            success := false,
            error := some "Agent completed but did not produce a final analysis.",
            model_versions := some fs.model_versions,
            tokens_consumed := some fs.tokens_consumed,
            reasoning_steps := some fs.reasoning_steps }
        let db3 := { db2 with runs := save_run fl.auditFail db2.runs noneRow }
        (db3, { final_analysis := "", success := false,
                error := some "Agent completed but did not produce a final analysis.",
                run_id := some run_id })

/-! ## HITL controller (src/app/controller/hitl_controller.py) -/

/-- The `AnalyzeResponse` returned after a resumed synthesis. -/
structure AnalyzeResponseM where
  final_analysis : String
  from_cache : Bool
  run_id : String
  risk_level : Option String
  hitl_status : Option String
deriving DecidableEq

/-- HTTP outcome of `approve_and_synthesize`: 404, 400 (already
processed), 500 (approve failed), or 200 with the response. -/
inductive ApproveOutcome where
  | notFound
  | alreadyProcessed (status : String)
  | approveFailed
  | ok (resp : AnalyzeResponseM)
deriving DecidableEq

/-- The state reconstructed by `_run_synthesis_from_review`
(hitl_controller.py lines 115–137): `validation_content =
edited_content or review.get("validation_content", "")`, `hitl_status =
"edited" if edited_content else "approved"`, everything else copied from
the persisted review. (The source also stows a `prompt_versions` key the
`TheologicalState` schema does not declare; no node reads it.) -/
def reconstruct_state_from_review (review : ReviewRow)
    (edited_content : Option String) : GState :=
  { bible_book := review.book, chapter := review.chapter,
    verses := review.verses.map pyStrOfInt,
    selected_modules := review.selected_modules,
    panorama_content := review.panorama_content,
    lexical_content := review.lexical_content,
    historical_content := review.historical_content,
    intertextual_content := review.intertextual_content,
    validation_content := pyOrStr edited_content review.validation_content,
    final_analysis := none,
    run_id := some review.run_id,
    created_at := review.created_at,
    model_versions := review.model_versions.getD [],
    tokens_consumed := review.tokens_consumed.getD [],
    reasoning_steps := review.reasoning_steps.getD [],
    risk_level := review.risk_level,
    hitl_status :=
      some (if pyTruthyStr edited_content then "edited" else "approved") }

/-- `_run_synthesis_from_review` (hitl_controller.py lines 106–173):
invokes only `synthesizer_node` on the reconstructed state, upserts the
audit row for the original run, and builds the response. -/
def run_synthesis_from_review (env : GenEnv) (auditFail : Bool)
    (runs : PyDict AuditRow) (review : ReviewRow)
    (edited_content : Option String) : PyDict AuditRow × AnalyzeResponseM :=
  let state := reconstruct_state_from_review review edited_content
  let result := synthesizer_node env state
  let final_analysis := result.final_analysis.getD ""
  let hitl_status := if pyTruthyStr edited_content then "edited" else "approved"
  let runs := save_run auditFail runs
    { run_id := review.run_id, book := review.book,
      chapter := review.chapter, verses := review.verses,
      selected_modules := review.selected_modules,
      success := true, final_analysis := final_analysis,
      hitl_status := some hitl_status, risk_level := review.risk_level,
      model_versions := some result.model_versions,
      tokens_consumed := some result.tokens_consumed,
      reasoning_steps := some result.reasoning_steps }
  (runs, { final_analysis := final_analysis, from_cache := false,
           run_id := review.run_id, risk_level := review.risk_level,
           hitl_status := some hitl_status })

/-- `approve_and_synthesize` (hitl_controller.py lines 58–103):
404 when no review exists, 400 when the review is not pending, 500 when
`approve_review` reports no accepted transition, otherwise the resumed
synthesis. `edited_content` is `request.edited_content if request else
None`. -/
def approve_and_synthesize (env : GenEnv) (getFail approveFail
    auditFail : Bool) (now : Nat) (db : Dbs) (run_id : String)
    (edited_content : Option String) : Dbs × ApproveOutcome :=
  match get_review getFail db.reviews run_id with
  | none => (db, .notFound)
  | some review =>
    if review.status ≠ "pending" then
      (db, .alreadyProcessed review.status)
    else
      let ar := approve_review approveFail now db.reviews run_id
        edited_content
      let db := { db with reviews := ar.1 }
      if ar.2 then
        let rs := run_synthesis_from_review env auditFail db.runs review
          edited_content
        ({ db with runs := rs.1 }, .ok rs.2)
      else (db, .approveFailed)

/-- Number of distinct optional modules selected (the router tests
membership, so duplicates and unknown names contribute nothing). -/
def optCount (mods : List String) : Nat :=
  (if "panorama" ∈ mods then 1 else 0) +
  (if "exegese" ∈ mods then 1 else 0) +
  (if "historical" ∈ mods then 1 else 0)

/-- The four fan-out branch nodes of the graph. -/
def isAgentName (n : String) : Bool :=
  n ∈ ["intertextual_agent", "panorama_agent", "lexical_agent",
       "historical_agent"]

/-- A concrete low-risk generation environment for witnesses. -/
def wEnvLow : GenEnv :=
  { sha256hex := id, jsonConf := fun _ => none,
    panorama := { content := "panorama txt", usage := ⟨1, 2⟩, duration_ms := 3 },
    lexical := { content := "lexical txt", usage := ⟨1, 2⟩, duration_ms := 3 },
    historical := { content := "hist txt", usage := ⟨1, 2⟩, duration_ms := 3 },
    intertextual := { content := "inter txt", usage := ⟨1, 2⟩, duration_ms := 3 },
    validator := { content := "val txt", risk_level := "low", alerts := [],
                   usage := ⟨4, 5⟩, duration_ms := 6 },
    synthesizer := { content := "estudo final", usage := ⟨7, 8⟩, duration_ms := 9 } }

/-- A concrete initial state for witnesses: `{panorama}` selected. -/
def wState0 : GState :=
  { bible_book := "Sl", chapter := 23, verses := ["1", "2"],
    selected_modules := ["panorama"],
    panorama_content := none, lexical_content := none,
    historical_content := none, intertextual_content := none,
    validation_content := none, final_analysis := none,
    run_id := some "r1", created_at := some "t1",
    model_versions := [], tokens_consumed := [], reasoning_steps := [],
    risk_level := none, hitl_status := none }

/-- The merged pre-gate state of the `wState0` fan-out under `wEnvLow`
when the panorama branch completes before the intertextual one. -/
def wPre : GState :=
  { wState0 with
    panorama_content := some "panorama txt",
    intertextual_content := some "inter txt",
    model_versions := [("panorama_agent", "gemini-2.5-flash-lite"),
                       ("intertextual_agent", "gemini-2.5-flash-lite")],
    tokens_consumed := [("panorama_agent", ⟨1, 2⟩),
                        ("intertextual_agent", ⟨1, 2⟩)],
    reasoning_steps :=
      [{ node := "panorama_agent", model := "gemini-2.5-flash-lite",
         tokens := ⟨1, 2⟩, duration_ms := 3 },
       { node := "intertextual_agent", model := "gemini-2.5-flash-lite",
         tokens := ⟨1, 2⟩, duration_ms := 3 }] }

/-- A concrete pending review row for witnesses. -/
def wRev : ReviewRow :=
  { run_id := "rid", book := "Sl", chapter := 23, verses := [1],
    risk_level := some "high", alerts := ["alerta"],
    validation_content := some "conteudo validado",
    selected_modules := ["panorama"], status := "pending" }

/-- A concrete cache entry for witnesses. -/
def wCE : CacheEntry :=
  { book := "Sl", chapter := 23, verses := [1],
    selected_modules := ["panorama"], final_analysis := "cached txt",
    hit_count := 4 }

/-! ## Theorems -/

theorem dictGet_append {α : Type} (a b : PyDict α) (k : String) :
    dictGet (a ++ b) k =
      match dictGet a k with
      | some v => some v
      | none => dictGet b k := by
  induction a with
  | nil => simp [dictGet]
  | cons p rest ih =>
    by_cases h : p.1 = k <;> simp [dictGet, h, ih]

theorem dictGet_map_override {α : Type} (l r : PyDict α) (k : String) :
    dictGet (l.map (fun p => (p.1, (dictGet r p.1).getD p.2))) k
      = (dictGet l k).map (fun v => (dictGet r k).getD v) := by
  induction l with
  | nil => simp [dictGet]
  | cons p rest ih =>
    by_cases h : p.1 = k
    · simp [dictGet, h]
    · simp [dictGet, h, ih]

theorem dictGet_filter_fresh {α : Type} (l r : PyDict α) (k : String) :
    dictGet (r.filter (fun p => (dictGet l p.1).isNone)) k
      = if (dictGet l k).isNone then dictGet r k else none := by
  induction r with
  | nil => simp [dictGet]
  | cons p rest ih =>
    by_cases h : p.1 = k
    · subst h
      cases hl : dictGet l p.1 <;>
        simp [dictGet, List.filter, hl, ih]
    · cases hp : (dictGet l p.1).isNone <;>
        simp [dictGet, List.filter, h, hp, ih]

/-- Lookup in `{**l, **r}` is right-biased lookup. -/
theorem dictGet_pyUnpackMerge {α : Type} (l r : PyDict α) (k : String) :
    dictGet (pyUnpackMerge l r) k =
      match dictGet r k with
      | some v => some v
      | none => dictGet l k := by
  rw [pyUnpackMerge, dictGet_append, dictGet_map_override,
      dictGet_filter_fresh]
  cases hl : dictGet l k <;> cases hr : dictGet r k <;> simp

/-- Lookup in `_merge_dicts a b` in terms of the operand lookups. -/
theorem dictGet_mergeDicts {α : Type} (a b : Option (PyDict α))
    (k : String) :
    dictGet (mergeDicts a b) k =
      match dictGet (b.getD []) k with
      | some v => some v
      | none => dictGet (a.getD []) k := by
  rw [mergeDicts, dictGet_pyUnpackMerge]

theorem mem_dictKeys_of_get {α : Type} {a : PyDict α} {k : String}
    {v : α} (ha : dictGet a k = some v) : k ∈ dictKeys a := by
  induction a with
  | nil => simp [dictGet] at ha
  | cons p rest ih =>
    by_cases hp : p.1 = k
    · simp [dictKeys, hp]
    · simp [dictGet, hp] at ha
      simp [dictKeys]
      exact Or.inr (by simpa [dictKeys] using ih ha)

theorem dictDisjointb_get {α : Type} {a b : PyDict α}
    (h : dictDisjointb a b = true) (k : String) :
    (dictGet a k).isNone ∨ (dictGet b k).isNone := by
  cases ha : dictGet a k with
  | none => exact Or.inl rfl
  | some v =>
    right
    have := List.all_eq_true.mp h k (mem_dictKeys_of_get ha)
    simpa using this

theorem pyDictEqb_of_get {α : Type} [DecidableEq α] {a b : PyDict α}
    (h : ∀ k, dictGet a k = dictGet b k) : pyDictEqb a b = true := by
  simp only [pyDictEqb, List.all_eq_true]
  intro k _
  exact decide_eq_true (h k)

/-! ### C1 — reducer algebra -/

/-- C1: the claim states `_concat_lists(a,b) = _concat_lists(b,a)` for
contributions from distinct nodes; it is false already for the
one-entry `reasoning_steps` contributions of the panorama and
intertextual branches, which concatenate to differently ordered lists. -/
theorem C1_counterexample :
    concatLists
        (some [({ node := "panorama_agent", model := "gemini-2.5-flash-lite",
                  tokens := ⟨1, 2⟩, duration_ms := 5 } : Step)])
        (some [({ node := "intertextual_agent",
                  model := "gemini-2.5-flash-lite",
                  tokens := ⟨3, 4⟩, duration_ms := 7 } : Step)]) ≠
      concatLists
        (some [({ node := "intertextual_agent",
                  model := "gemini-2.5-flash-lite",
                  tokens := ⟨3, 4⟩, duration_ms := 7 } : Step)])
        (some [({ node := "panorama_agent", model := "gemini-2.5-flash-lite",
                  tokens := ⟨1, 2⟩, duration_ms := 5 } : Step)]) := by
  decide

/-- C1 (amended): for key-disjoint contributions (each node contributes
its own key) `_merge_dicts` is commutative up to Python dict equality,
and unconditionally associative up to Python dict equality;
`_concat_lists` is associative, and merging list contributions in the
two orders yields permutations of the same entries — not equal lists. -/
theorem C1_reducer_algebra {α : Type} [DecidableEq α]
    (a b c : PyDict α) (xs ys zs : List α)
    (h : dictDisjointb a b = true) :
    pyDictEqb (mergeDicts (some a) (some b))
        (mergeDicts (some b) (some a)) = true
    ∧ pyDictEqb (mergeDicts (some (mergeDicts (some a) (some b))) (some c))
        (mergeDicts (some a) (some (mergeDicts (some b) (some c)))) = true
    ∧ concatLists (some (concatLists (some xs) (some ys))) (some zs)
        = concatLists (some xs) (some (concatLists (some ys) (some zs)))
    ∧ (concatLists (some xs) (some ys)).Perm
        (concatLists (some ys) (some xs)) := by
  refine ⟨?_, ?_, ?_, ?_⟩
  · apply pyDictEqb_of_get
    intro k
    rw [dictGet_mergeDicts, dictGet_mergeDicts]
    rcases dictDisjointb_get h k with hk | hk <;>
      cases ha : dictGet a k <;> cases hb : dictGet b k <;>
        simp_all [Option.isNone]
  · apply pyDictEqb_of_get
    intro k
    simp only [dictGet_mergeDicts, Option.getD_some]
    cases dictGet c k <;> cases dictGet b k <;> cases dictGet a k <;> simp
  · simp [concatLists, List.append_assoc]
  · simpa [concatLists] using @List.perm_append_comm _ xs ys

/-- C1 witness: the amended reducer algebra at concrete branch
contributions. -/
theorem C1_reducer_algebra_witness :
    dictDisjointb [("panorama_agent", 1)] [("intertextual_agent", 2)] = true
    ∧ (pyDictEqb
          (mergeDicts (some [("panorama_agent", 1)])
            (some [("intertextual_agent", 2)]))
          (mergeDicts (some [("intertextual_agent", 2)])
            (some [("panorama_agent", 1)])) = true
      ∧ pyDictEqb
          (mergeDicts
            (some (mergeDicts (some [("panorama_agent", 1)])
              (some [("intertextual_agent", 2)])))
            (some [("theological_validator", 3)]))
          (mergeDicts (some [("panorama_agent", 1)])
            (some (mergeDicts (some [("intertextual_agent", 2)])
              (some [("theological_validator", 3)])))) = true
      ∧ concatLists (some (concatLists (some [10]) (some [20]))) (some [30])
          = concatLists (some [10]) (some (concatLists (some [20]) (some [30])))
      ∧ (concatLists (some [10]) (some [20])).Perm
          (concatLists (some [20]) (some [10]))) :=
  ⟨by decide,
   C1_reducer_algebra [("panorama_agent", 1)] [("intertextual_agent", 2)]
     [("theological_validator", 3)] [10] [20] [30] (by decide)⟩

/-! ### C2 — risk routing -/

theorem runGraph_fields (env : GenEnv) (hls eok : Bool) (db : Dbs)
    (s0 : GState)
    (hex : "exegese" ∉ s0.selected_modules)
    (hhist : "historical" ∉ s0.selected_modules)
    (hinit : s0.hitl_status = none) :
    ∃ p : Dbs × GState, runGraph env hls eok db s0 = .ok p
      ∧ p.2.risk_level = some env.validator.risk_level
      ∧ (env.validator.risk_level = "high" →
          p.2.hitl_status = some "pending"
          ∧ p.2.final_analysis = s0.final_analysis)
      ∧ (env.validator.risk_level ≠ "high" →
          p.2.hitl_status = none
          ∧ p.2.final_analysis =
              some (sanitize_llm_output env.jsonConf env.synthesizer.content)) := by
  by_cases hp : "panorama" ∈ s0.selected_modules <;>
  by_cases hr : env.validator.risk_level = "high"
  all_goals
    cases hrg : runGraph env hls eok db s0 with
    | error e =>
      exfalso
      simp [runGraph, runBranches, runBranchesAux, router_function,
        nodeUpdateE, route_after_validation, applyUpdate, updField,
        join_node, panorama_node, intertextual_node,
        theological_validator_node, synthesizer_node, hitl_pending_node,
        baseNodeResult, hp, hex, hhist, hr] at hrg
    | ok p =>
      refine ⟨p, rfl, ?_⟩
      simp [runGraph, runBranches, runBranchesAux, router_function,
        nodeUpdateE, route_after_validation, applyUpdate, updField,
        join_node, panorama_node, intertextual_node,
        theological_validator_node, synthesizer_node, hitl_pending_node,
        baseNodeResult, hp, hex, hhist, hr] at hrg
      subst hrg
      simp [hinit, hr]

theorem run_analysis_eval (env : GenEnv) (fl : RunFlags) (db : Dbs)
    (inp : AnalysisInput) (run_id created_at : String) (p : Dbs × GState)
    (hmiss : (get_cached_analysis fl.cacheReadFail db.cache
        (generate_cache_key env.sha256hex inp.book inp.chapter inp.verses
          inp.selected_modules)).2 = none)
    (hrg : runGraph env fl.hitlSaveFail fl.emailSmtpOk
        { db with cache := (get_cached_analysis fl.cacheReadFail db.cache
            (generate_cache_key env.sha256hex inp.book inp.chapter
              inp.verses inp.selected_modules)).1 }
        (prepare_agent_state inp run_id created_at) = .ok p) :
    (run_analysis env fl db inp run_id created_at).2 =
      if p.2.hitl_status = some "pending" then
        { final_analysis := "", success := true, run_id := some run_id,
          risk_level := p.2.risk_level, hitl_status := some "pending" }
      else if pyTruthyStr p.2.final_analysis then
        { final_analysis := p.2.final_analysis.getD "", success := true,
          run_id := some run_id, risk_level := p.2.risk_level,
          hitl_status := p.2.hitl_status }
      else
        { final_analysis := "", success := false,
          error := some "Agent completed but did not produce a final analysis.",
          run_id := some run_id } := by
  simp only [run_analysis, hmiss, hrg]
  split
  · rfl
  · split <;> rfl

/-- C2: `route_after_validation` routes to `"hitl_pending"` iff the
merged state's `risk_level` is `"high"` (an absent/`None` risk routes to
the synthesizer, not an error); on a cache miss over a crash-free module
selection, a gate report of `"high"` ends the run with `hitl_status =
"pending"` and an empty final output, while `"low"`/`"medium"` ends it
with the non-empty synthesized output and `hitl_status` unset. (The
selection must avoid the `exegese`/`historical` modules, whose branch
nodes fail on the undefined `ModelTier.FAST` attribute before any gate
can report a risk.) -/
theorem C2_risk_routing (env : GenEnv) (fl : RunFlags) (db : Dbs)
    (inp : AnalysisInput) (run_id created_at : String)
    (hmiss : (get_cached_analysis fl.cacheReadFail db.cache
        (generate_cache_key env.sha256hex inp.book inp.chapter inp.verses
          inp.selected_modules)).2 = none)
    (hex : "exegese" ∉ inp.selected_modules.map
        (fun m => (dictGet MODULE_MAPPING m).getD m))
    (hhist : "historical" ∉ inp.selected_modules.map
        (fun m => (dictGet MODULE_MAPPING m).getD m)) :
    (∀ s : GState, route_after_validation s = "hitl_pending" ↔
        s.risk_level = some "high")
    ∧ (∀ s : GState, s.risk_level = none →
        route_after_validation s = "synthesizer")
    ∧ (env.validator.risk_level = "high" →
        (run_analysis env fl db inp run_id created_at).2.hitl_status
            = some "pending"
        ∧ (run_analysis env fl db inp run_id created_at).2.final_analysis
            = "")
    ∧ ((env.validator.risk_level = "low" ∨ env.validator.risk_level = "medium") →
        sanitize_llm_output env.jsonConf env.synthesizer.content ≠ "" →
        (run_analysis env fl db inp run_id created_at).2.final_analysis
            = sanitize_llm_output env.jsonConf env.synthesizer.content
        ∧ (run_analysis env fl db inp run_id created_at).2.hitl_status
            = none) := by
  obtain ⟨p, hrg, hprisk, hhigh, hlow⟩ :=
    runGraph_fields env fl.hitlSaveFail fl.emailSmtpOk
      { db with cache := (get_cached_analysis fl.cacheReadFail db.cache
          (generate_cache_key env.sha256hex inp.book inp.chapter
            inp.verses inp.selected_modules)).1 }
      (prepare_agent_state inp run_id created_at) hex hhist rfl
  have hres := run_analysis_eval env fl db inp run_id created_at p hmiss hrg
  refine ⟨?_, ?_, ?_, ?_⟩
  · intro s
    by_cases h : s.risk_level = some "high" <;>
      simp [route_after_validation, h]
  · intro s h
    simp [route_after_validation, h]
  · intro hr
    obtain ⟨hp1, _⟩ := hhigh hr
    rw [hres]
    simp [hp1]
  · intro hr hsynth
    have hr' : env.validator.risk_level ≠ "high" := by
      rcases hr with h | h <;> simp [h]
    obtain ⟨hp1, hp2⟩ := hlow hr'
    rw [hres]
    simp [hp1, hp2, pyTruthyStr, hsynth]

/-- C2 witness: a concrete low-risk run over `{panorama}` returns the
synthesized text with `hitl_status` unset. -/
theorem C2_risk_routing_witness :
    (get_cached_analysis false ([] : PyDict CacheEntry)
        (generate_cache_key id "Sl" 23 [1, 2] ["panorama"])).2 = none
    ∧ ("exegese" ∉ (["panorama"] : List String).map
        (fun m => (dictGet MODULE_MAPPING m).getD m))
    ∧ ("historical" ∉ (["panorama"] : List String).map
        (fun m => (dictGet MODULE_MAPPING m).getD m))
    ∧ ((run_analysis wEnvLow {} ⟨[], [], []⟩ ⟨"Sl", 23, [1, 2], ["panorama"]⟩
          "r1" "t1").2.final_analysis
        = sanitize_llm_output wEnvLow.jsonConf wEnvLow.synthesizer.content
      ∧ (run_analysis wEnvLow {} ⟨[], [], []⟩ ⟨"Sl", 23, [1, 2], ["panorama"]⟩
          "r1" "t1").2.hitl_status = none) :=
  ⟨rfl, by decide, by decide,
   (C2_risk_routing wEnvLow {} ⟨[], [], []⟩ ⟨"Sl", 23, [1, 2], ["panorama"]⟩
       "r1" "t1" rfl (by decide) (by decide)).2.2.2
     (Or.inl rfl) (by decide)⟩

/-! ### C3 — dynamic fan-out and the join barrier -/

theorem mergeDicts_isSome_left {α : Type} (d u : PyDict α) (k : String)
    (h : (dictGet d k).isSome) :
    (dictGet (mergeDicts (some d) (some u)) k).isSome := by
  rw [dictGet_mergeDicts]
  cases hu : dictGet u k <;> simp_all

theorem runBranchesAux_mono (env : GenEnv) (s0 : GState) :
    ∀ (order : List String) (acc pre : GState),
      runBranchesAux env s0 order acc = .ok pre → ∀ k,
      ((dictGet acc.model_versions k).isSome →
        (dictGet pre.model_versions k).isSome)
      ∧ ((dictGet acc.tokens_consumed k).isSome →
        (dictGet pre.tokens_consumed k).isSome) := by
  intro order
  induction order with
  | nil =>
    intro acc pre h k
    simp only [runBranchesAux] at h
    cases h
    exact ⟨id, id⟩
  | cons n rest ih =>
    intro acc pre h k
    simp only [runBranchesAux] at h
    cases hu : nodeUpdateE env s0 n with
    | error e => rw [hu] at h; cases h
    | ok u =>
      rw [hu] at h
      have := ih (applyUpdate acc u) pre h k
      refine ⟨fun hs => this.1 ?_, fun hs => this.2 ?_⟩
      · exact mergeDicts_isSome_left _ _ _ hs
      · exact mergeDicts_isSome_left _ _ _ hs

theorem mergeDicts_isSome_right {α : Type} (d u : PyDict α) (k : String)
    (h : (dictGet u k).isSome) :
    (dictGet (mergeDicts (some d) (some u)) k).isSome := by
  rw [dictGet_mergeDicts]
  cases hu : dictGet u k <;> simp_all

theorem runBranchesAux_barrier (env : GenEnv) (s0 : GState) :
    ∀ (order : List String) (acc pre : GState),
      runBranchesAux env s0 order acc = .ok pre →
      (∀ n ∈ order, isAgentName n = true) →
      (∀ n ∈ order, (dictGet pre.model_versions n).isSome
        ∧ (dictGet pre.tokens_consumed n).isSome)
      ∧ pre.reasoning_steps.length
          = acc.reasoning_steps.length + order.length := by
  intro order
  induction order with
  | nil =>
    intro acc pre h _
    simp only [runBranchesAux] at h
    cases h
    exact ⟨by simp, by simp⟩
  | cons n rest ih =>
    intro acc pre h hag
    simp only [runBranchesAux] at h
    have hn : isAgentName n = true := hag n (by simp)
    have hrest : ∀ m ∈ rest, isAgentName m = true :=
      fun m hm => hag m (by simp [hm])
    simp only [isAgentName, List.mem_cons, List.mem_singleton,
      List.not_mem_nil, or_false, decide_eq_true_eq] at hn
    rcases hn with hn | hn | hn | hn <;> subst hn
    · -- intertextual
      have h' : runBranchesAux env s0 rest
          (applyUpdate acc (intertextual_node env s0)) = .ok pre := h
      obtain ⟨hmem, hlen⟩ := ih _ pre h' hrest
      refine ⟨?_, ?_⟩
      · intro m hm
        rcases List.mem_cons.mp hm with rfl | hm
        · have hmono := runBranchesAux_mono env s0 rest _ pre h'
            "intertextual_agent"
          refine ⟨hmono.1 ?_, hmono.2 ?_⟩
          · exact mergeDicts_isSome_right _ _ _
              (by simp [intertextual_node, baseNodeResult, dictGet])
          · exact mergeDicts_isSome_right _ _ _
              (by simp [intertextual_node, baseNodeResult, dictGet])
        · exact hmem m hm
      · rw [hlen]
        simp [applyUpdate, intertextual_node, baseNodeResult, concatLists]
        omega
    · -- panorama
      have h' : runBranchesAux env s0 rest
          (applyUpdate acc (panorama_node env s0)) = .ok pre := h
      obtain ⟨hmem, hlen⟩ := ih _ pre h' hrest
      refine ⟨?_, ?_⟩
      · intro m hm
        rcases List.mem_cons.mp hm with rfl | hm
        · have hmono := runBranchesAux_mono env s0 rest _ pre h'
            "panorama_agent"
          refine ⟨hmono.1 ?_, hmono.2 ?_⟩
          · exact mergeDicts_isSome_right _ _ _
              (by simp [panorama_node, baseNodeResult, dictGet])
          · exact mergeDicts_isSome_right _ _ _
              (by simp [panorama_node, baseNodeResult, dictGet])
        · exact hmem m hm
      · rw [hlen]
        simp [applyUpdate, panorama_node, baseNodeResult, concatLists]
        omega
    · -- lexical: the node fails, contradicting the ok hypothesis
      have h' : (Except.error
          "AttributeError: type object 'ModelTier' has no attribute 'FAST'"
          : Except String GState) = .ok pre := h
      simp at h'
    · -- historical: the node fails as well
      have h' : (Except.error
          "AttributeError: type object 'ModelTier' has no attribute 'FAST'"
          : Except String GState) = .ok pre := h
      simp at h'

/-- C3: the router's fan-out always contains the mandatory intertextual
agent plus exactly one Send per selected optional module among
panorama/exegese/historical, so its size is `|selected| + 1` (between 1
and 4); and for every completion order of the dispatched branches whose
merge reaches the gate, the merged pre-gate state holds a
`model_versions` and `tokens_consumed` contribution from every
dispatched branch and exactly one reasoning entry per branch. -/
theorem C3_router_fanout (s : GState) :
    "intertextual_agent" ∈ router_function s
    ∧ (router_function s).length = optCount s.selected_modules + 1
    ∧ 1 ≤ (router_function s).length ∧ (router_function s).length ≤ 4
    ∧ ("panorama_agent" ∈ router_function s ↔
        "panorama" ∈ s.selected_modules)
    ∧ ("lexical_agent" ∈ router_function s ↔
        "exegese" ∈ s.selected_modules)
    ∧ ("historical_agent" ∈ router_function s ↔
        "historical" ∈ s.selected_modules)
    ∧ (router_function s).Nodup
    ∧ (∀ (env : GenEnv) (order : List String) (pre : GState),
        order.Perm (router_function s) →
        runBranches env s order = .ok pre →
        (∀ n ∈ router_function s,
          (dictGet pre.model_versions n).isSome
          ∧ (dictGet pre.tokens_consumed n).isSome)
        ∧ pre.reasoning_steps.length
            = s.reasoning_steps.length + (router_function s).length) := by
  have hbar : ∀ (env : GenEnv) (order : List String) (pre : GState),
      order.Perm (router_function s) →
      runBranches env s order = .ok pre →
      (∀ n ∈ router_function s,
        (dictGet pre.model_versions n).isSome
        ∧ (dictGet pre.tokens_consumed n).isSome)
      ∧ pre.reasoning_steps.length
          = s.reasoning_steps.length + (router_function s).length := by
    intro env order pre hperm hok
    have hsub : ∀ n ∈ order, isAgentName n = true := by
      intro n hn
      have hn' := hperm.mem_iff.mp hn
      revert hn'
      by_cases h1 : "panorama" ∈ s.selected_modules <;>
      by_cases h2 : "exegese" ∈ s.selected_modules <;>
      by_cases h3 : "historical" ∈ s.selected_modules <;>
        simp [router_function, h1, h2, h3, isAgentName] <;>
        rintro (rfl | rfl | rfl | rfl) <;> decide
    obtain ⟨hmem, hlen⟩ :=
      runBranchesAux_barrier env s order s pre hok hsub
    exact ⟨fun n hn => hmem n (hperm.mem_iff.mpr hn),
      by rw [hlen, hperm.length_eq]⟩
  refine ⟨?_, ?_, ?_, ?_, ?_, ?_, ?_, ?_, hbar⟩ <;>
    by_cases h1 : "panorama" ∈ s.selected_modules <;>
    by_cases h2 : "exegese" ∈ s.selected_modules <;>
    by_cases h3 : "historical" ∈ s.selected_modules <;>
      simp [router_function, optCount, h1, h2, h3]

/-- C3 witness: with `{panorama}` selected the fan-out is the
intertextual plus the panorama agent, and merging the two branch
contributions in the reversed completion order still hands the gate both
contributions. -/
theorem C3_router_fanout_witness :
    (["panorama_agent", "intertextual_agent"] : List String).Perm
        (router_function wState0)
    ∧ runBranches wEnvLow wState0 ["panorama_agent", "intertextual_agent"]
        = .ok wPre
    ∧ ((∀ n ∈ router_function wState0,
          (dictGet wPre.model_versions n).isSome
          ∧ (dictGet wPre.tokens_consumed n).isSome)
        ∧ wPre.reasoning_steps.length
            = wState0.reasoning_steps.length
              + (router_function wState0).length) :=
  ⟨by decide, by rfl,
   (C3_router_fanout wState0).2.2.2.2.2.2.2.2 wEnvLow
     ["panorama_agent", "intertextual_agent"] wPre (by decide) (by rfl)⟩

/-! ### C5 — single accepted approval transition -/

theorem dictGet_dictSet_self {α : Type} (db : PyDict α) (k : String)
    (v : α) :
    dictGet (dictSet db k v) k
      = if (dictGet db k).isSome then some v else none := by
  induction db with
  | nil => simp [dictGet, dictSet]
  | cons p rest ih =>
    obtain ⟨pk, pv⟩ := p
    simp only [dictSet, List.map_cons] at ih ⊢
    by_cases h : pk = k
    · rw [if_pos h]
      simp [dictGet, h]
    · rw [if_neg h]
      simp only [dictGet, h, if_false]
      simpa [dictSet] using ih

/-- C5: `approve_review` accepts exactly the attempts that find a
`pending` row at update time; a rejected attempt mutates nothing; after
an accepted transition any further attempt is rejected with the table
unchanged; and the controller surfaces 404 when no review exists and 400
(`alreadyProcessed`) when the review is already resolved, both without
mutation. -/
theorem C5_approve_once (now now2 : Nat) (db : PyDict ReviewRow)
    (run_id : String) (e1 e2 : Option String) :
    ((approve_review false now db run_id e1).2 = true ↔
      ∃ r, dictGet db run_id = some r ∧ r.status = "pending")
    ∧ ((approve_review false now db run_id e1).2 = false →
        (approve_review false now db run_id e1).1 = db)
    ∧ ((approve_review false now db run_id e1).2 = true →
        approve_review false now2
            (approve_review false now db run_id e1).1 run_id e2
          = ((approve_review false now db run_id e1).1, false))
    ∧ (∀ (env : GenEnv) (dbs : Dbs) (e : Option String),
        dictGet dbs.reviews run_id = none →
        approve_and_synthesize env false false false now dbs run_id e
          = (dbs, .notFound))
    ∧ (∀ (env : GenEnv) (dbs : Dbs) (e : Option String) (r : ReviewRow),
        dictGet dbs.reviews run_id = some r → r.status ≠ "pending" →
        approve_and_synthesize env false false false now dbs run_id e
          = (dbs, .alreadyProcessed r.status)) := by
  have hiff : (approve_review false now db run_id e1).2 = true ↔
      ∃ r, dictGet db run_id = some r ∧ r.status = "pending" := by
    constructor
    · intro h
      revert h
      simp only [approve_review, Bool.false_eq_true, if_false]
      cases hd : dictGet db run_id with
      | none => simp
      | some r =>
        by_cases hs : r.status = "pending"
        · intro _; exact ⟨r, rfl, hs⟩
        · simp [hs]
    · rintro ⟨r, hd, hs⟩
      simp [approve_review, hd, hs]
  refine ⟨hiff, ?_, ?_, ?_, ?_⟩
  · intro h
    revert h
    simp only [approve_review, Bool.false_eq_true, if_false]
    cases hd : dictGet db run_id with
    | none => simp
    | some r =>
      by_cases hs : r.status = "pending" <;> simp [hs]
  · intro h
    obtain ⟨r, hd, hs⟩ := hiff.mp h
    have hr1 : (approve_review false now db run_id e1).1
        = dictSet db run_id
            (if pyTruthyStr e1 then
              { r with status := "edited", edited_content := e1,
                       reviewed_at := some now }
             else { r with status := "approved", reviewed_at := some now }) := by
      by_cases ht : pyTruthyStr e1 <;> simp [approve_review, hd, hs, ht]
    rw [hr1]
    have hget : dictGet (dictSet db run_id
        (if pyTruthyStr e1 then
          { r with status := "edited", edited_content := e1,
                   reviewed_at := some now }
         else { r with status := "approved", reviewed_at := some now }))
        run_id
        = some (if pyTruthyStr e1 then
            { r with status := "edited", edited_content := e1,
                     reviewed_at := some now }
           else { r with status := "approved", reviewed_at := some now }) := by
      rw [dictGet_dictSet_self]
      simp [hd]
    by_cases ht : pyTruthyStr e1 <;>
      simp [ht] at hget <;>
      simp [approve_review, hget, ht]
  · intro env dbs e hd
    simp [approve_and_synthesize, get_review, hd]
  · intro env dbs e r hd hs
    simp [approve_and_synthesize, get_review, hd, hs]

/-- C5 witness: a concrete pending review is approved exactly once; the
second attempt is rejected and mutates nothing. -/
theorem C5_approve_once_witness :
    ((approve_review false 5 [("rid", wRev)] "rid" (some "edited text")).2
        = true ↔
      ∃ r, dictGet [("rid", wRev)] "rid" = some r ∧ r.status = "pending")
    ∧ ((approve_review false 5 [("rid", wRev)] "rid"
          (some "edited text")).2 = true →
        approve_review false 9
            (approve_review false 5 [("rid", wRev)] "rid"
              (some "edited text")).1 "rid" none
          = ((approve_review false 5 [("rid", wRev)] "rid"
              (some "edited text")).1, false)) :=
  ⟨(C5_approve_once 5 9 [("rid", wRev)] "rid" (some "edited text") none).1,
   (C5_approve_once 5 9 [("rid", wRev)] "rid"
      (some "edited text") none).2.2.1⟩

/-! ### C6 — resume runs only the synthesizer on the reconstructed
state -/

/-- C6: resuming a pending review reconstructs the synthesis state from
the persisted row (all non-validation fields copied from the review); a
non-empty edited override fills the validation slot and the status
becomes `edited`, otherwise the stored `validation_content` is used and
the status becomes `approved`; in both cases the controller's response
is exactly the output of `run_synthesis_from_review` — which invokes
only `synthesizer_node` — so the final analysis is the synthesizer's
(sanitized) output. -/
theorem C6_resume_semantics (env : GenEnv) (dbs : Dbs) (run_id : String)
    (r : ReviewRow) (e : String) (now : Nat)
    (hd : dictGet dbs.reviews run_id = some r)
    (hp : r.status = "pending") (he : e ≠ "") :
    (∀ e' : Option String,
      (reconstruct_state_from_review r e').bible_book = r.book
      ∧ (reconstruct_state_from_review r e').chapter = r.chapter
      ∧ (reconstruct_state_from_review r e').verses = r.verses.map pyStrOfInt
      ∧ (reconstruct_state_from_review r e').selected_modules
          = r.selected_modules
      ∧ (reconstruct_state_from_review r e').panorama_content
          = r.panorama_content
      ∧ (reconstruct_state_from_review r e').lexical_content
          = r.lexical_content
      ∧ (reconstruct_state_from_review r e').historical_content
          = r.historical_content
      ∧ (reconstruct_state_from_review r e').intertextual_content
          = r.intertextual_content
      ∧ (reconstruct_state_from_review r e').risk_level = r.risk_level)
    ∧ ((reconstruct_state_from_review r (some e)).validation_content = some e
      ∧ (reconstruct_state_from_review r (some e)).hitl_status
          = some "edited"
      ∧ (approve_and_synthesize env false false false now dbs run_id
            (some e)).2
          = .ok (run_synthesis_from_review env false dbs.runs r (some e)).2
      ∧ (run_synthesis_from_review env false dbs.runs r
            (some e)).2.final_analysis
          = sanitize_llm_output env.jsonConf env.synthesizer.content
      ∧ (run_synthesis_from_review env false dbs.runs r
            (some e)).2.hitl_status = some "edited"
      ∧ dictGet (approve_and_synthesize env false false false now dbs
            run_id (some e)).1.reviews run_id
          = some { r with status := "edited", edited_content := some e,
                          reviewed_at := some now })
    ∧ ((reconstruct_state_from_review r none).validation_content
          = r.validation_content
      ∧ (reconstruct_state_from_review r none).hitl_status
          = some "approved"
      ∧ (approve_and_synthesize env false false false now dbs run_id
            none).2
          = .ok (run_synthesis_from_review env false dbs.runs r none).2
      ∧ (run_synthesis_from_review env false dbs.runs r
            none).2.final_analysis
          = sanitize_llm_output env.jsonConf env.synthesizer.content
      ∧ (run_synthesis_from_review env false dbs.runs r
            none).2.hitl_status = some "approved"
      ∧ dictGet (approve_and_synthesize env false false false now dbs
            run_id none).1.reviews run_id
          = some { r with status := "approved",
                          reviewed_at := some now }) := by
  have ht : pyTruthyStr (some e) = true := by
    simp [pyTruthyStr, he]
  refine ⟨?_, ⟨?_, ?_, ?_, ?_, ?_, ?_⟩, ⟨?_, ?_, ?_, ?_, ?_, ?_⟩⟩
  · intro e'
    exact ⟨rfl, rfl, rfl, rfl, rfl, rfl, rfl, rfl, rfl⟩
  · simp [reconstruct_state_from_review, pyOrStr, ht]
  · simp [reconstruct_state_from_review, ht]
  · simp [approve_and_synthesize, get_review, hd, hp, approve_review, ht]
  · simp [run_synthesis_from_review, synthesizer_node, baseNodeResult]
  · simp [run_synthesis_from_review, ht]
  · simp [approve_and_synthesize, get_review, hd, hp, approve_review, ht,
      dictGet_dictSet_self, hd]
  · simp [reconstruct_state_from_review, pyOrStr, pyTruthyStr]
  · simp [reconstruct_state_from_review, pyTruthyStr]
  · simp [approve_and_synthesize, get_review, hd, hp, approve_review,
      pyTruthyStr]
  · simp [run_synthesis_from_review, synthesizer_node, baseNodeResult]
  · simp [run_synthesis_from_review, pyTruthyStr]
  · simp [approve_and_synthesize, get_review, hd, hp, approve_review,
      pyTruthyStr, dictGet_dictSet_self, hd]

/-- C6 witness: resuming the concrete pending review with the non-empty
override `"novo texto"` synthesizes from the override with status
`edited`. -/
theorem C6_resume_semantics_witness :
    dictGet [("rid", wRev)] "rid" = some wRev
    ∧ wRev.status = "pending"
    ∧ ("novo texto" ≠ "")
    ∧ ((reconstruct_state_from_review wRev
          (some "novo texto")).validation_content = some "novo texto"
      ∧ (reconstruct_state_from_review wRev (some "novo texto")).hitl_status
          = some "edited") :=
  ⟨by decide, by decide, by decide,
   ⟨((C6_resume_semantics wEnvLow ⟨[], [], [("rid", wRev)]⟩ "rid" wRev
        "novo texto" 5 (by decide) (by decide) (by decide)).2.1).1,
    ((C6_resume_semantics wEnvLow ⟨[], [], [("rid", wRev)]⟩ "rid" wRev
        "novo texto" 5 (by decide) (by decide) (by decide)).2.1).2.1⟩⟩

/-! ### C7 — pausing is idempotent and notifier-failure tolerant -/

/-- C7: a duplicate persist of a pending review for an existing
`run_id` is a no-op (`ON CONFLICT DO NOTHING`) leaving the first-written
row in place, and `hitl_pending_node` returns
`{"hitl_status": "pending"}` whatever the email notification outcome,
with the persisted state independent of that outcome. -/
theorem C7_pause_robust (reviews : PyDict ReviewRow) (run_id : String) :
    (∀ (book : String) (chapter : Int) (verses : List Int)
        (risk : Option String) (alerts : List String) (vc : Option String)
        (sm : List String) (pc lc hc ic : Option String)
        (mv : Option (PyDict String)) (tc : Option (PyDict Usage))
        (rs : Option (List Step)),
        (dictGet reviews run_id).isSome →
        save_pending_review reviews run_id book chapter verses risk alerts
            vc sm pc lc hc ic mv tc rs = reviews)
    ∧ (∀ (hls eok : Bool) (db : Dbs) (s : GState),
        (hitl_pending_node hls eok db s).2
            = { hitl_status := some "pending" }
        ∧ (hitl_pending_node hls eok db s).1
            = (hitl_pending_node hls true db s).1) := by
  constructor
  · intro book chapter verses risk alerts vc sm pc lc hc ic mv tc rs h
    simp [save_pending_review, insertIfAbsent, h]
  · intro hls eok db s
    exact ⟨rfl, rfl⟩

/-- C7 witness: a duplicate persist for the already-pending `"rid"` row
leaves the table unchanged. -/
theorem C7_pause_robust_witness :
    (dictGet [("rid", wRev)] "rid").isSome = true
    ∧ save_pending_review [("rid", wRev)] "rid" "Gn" 1 [9] (some "high")
        [] none ["panorama"] none none none none none none none
        = [("rid", wRev)] :=
  ⟨by decide,
   (C7_pause_robust [("rid", wRev)] "rid").1 "Gn" 1 [9] (some "high") []
     none ["panorama"] none none none none none none none (by decide)⟩

/-! ### C8 — audit writes are an upsert and best-effort -/

theorem dictSet_length {α : Type} (db : PyDict α) (k : String) (v : α) :
    (dictSet db k v).length = db.length := by
  simp [dictSet]

/-- C8: `save_run` is an upsert keyed by `run_id`: a second call for the
same run adds no row and rewrites exactly the late-arriving fields
(`final_analysis`, `success`, `error`, `hitl_status`, `duration_ms`),
keeping every other stored field; a storage failure is swallowed leaving
the table untouched, and the audit-failure flag never changes
`run_analysis`'s returned result. -/
theorem C8_audit_upsert (db : PyDict AuditRow) (r r2 : AuditRow)
    (hid : r2.run_id = r.run_id) (habs : dictGet db r.run_id = none) :
    ((save_run false (save_run false db r) r2).length
        = (save_run false db r).length)
    ∧ (∀ row1 row2,
        dictGet (save_run false db r) r.run_id = some row1 →
        dictGet (save_run false (save_run false db r) r2) r.run_id
            = some row2 →
        row2.final_analysis = r2.final_analysis
        ∧ row2.success = r2.success
        ∧ row2.error = r2.error
        ∧ row2.hitl_status = r2.hitl_status
        ∧ row2.duration_ms = r2.duration_ms
        ∧ row2.book = row1.book ∧ row2.chapter = row1.chapter
        ∧ row2.verses = row1.verses
        ∧ row2.selected_modules = row1.selected_modules
        ∧ row2.model_versions = row1.model_versions
        ∧ row2.tokens_consumed = row1.tokens_consumed
        ∧ row2.reasoning_steps = row1.reasoning_steps
        ∧ row2.risk_level = row1.risk_level)
    ∧ (∀ (db' : PyDict AuditRow) (r' : AuditRow),
        save_run true db' r' = db')
    ∧ (∀ (env : GenEnv) (fl : RunFlags) (dbs : Dbs) (inp : AnalysisInput)
        (rid ca : String),
        (run_analysis env { fl with auditFail := true } dbs inp rid ca).2
          = (run_analysis env { fl with auditFail := false } dbs inp
              rid ca).2) := by
  have hex : (dictGet (save_run false db r) r.run_id).isSome := by
    simp [save_run, habs, dictGet_append, dictGet]
  obtain ⟨row1v, hrow1⟩ := Option.isSome_iff_exists.mp hex
  have hsec' : ∀ db1 : PyDict AuditRow, dictGet db1 r.run_id = some row1v →
      save_run false db1 r2
        = dictSet db1 r.run_id
            { row1v with final_analysis := r2.final_analysis,
                         success := r2.success, error := r2.error,
                         hitl_status := r2.hitl_status,
                         duration_ms := r2.duration_ms } := by
    intro db1 h1
    simp [save_run, hid, h1]
  have hsec := hsec' (save_run false db r) hrow1
  refine ⟨?_, ?_, ?_, ?_⟩
  · rw [hsec]
    exact dictSet_length _ _ _
  · intro row1 row2 h1 h2
    rw [hrow1] at h1
    cases h1
    rw [hsec, dictGet_dictSet_self, hrow1] at h2
    simp at h2
    cases h2
    simp
  · intro db' r'
    simp [save_run]
  · intro env fl dbs inp rid ca
    simp only [run_analysis]
    cases (get_cached_analysis fl.cacheReadFail dbs.cache
        (generate_cache_key env.sha256hex inp.book inp.chapter inp.verses
          inp.selected_modules)).2 with
    | some c => rfl
    | none =>
      cases runGraph env fl.hitlSaveFail fl.emailSmtpOk
          { dbs with cache := (get_cached_analysis fl.cacheReadFail
              dbs.cache (generate_cache_key env.sha256hex inp.book
                inp.chapter inp.verses inp.selected_modules)).1 }
          (prepare_agent_state inp rid ca) with
      | error e => rfl
      | ok p =>
        by_cases hp : p.2.hitl_status = some "pending" <;>
          by_cases ht : pyTruthyStr p.2.final_analysis <;>
            simp [hp, ht]

/-- C8 witness: a second audit save for the same run keeps one row and
swaps in the late-arriving fields. -/
theorem C8_audit_upsert_witness :
    (({ run_id := "rid", book := "Sl", chapter := 23, verses := [1],
        selected_modules := ["panorama"], success := true,
        hitl_status := some "pending" } : AuditRow).run_id
      = ({ run_id := "rid", book := "Sl", chapter := 23, verses := [1],
           selected_modules := ["panorama"], success := true } :
          AuditRow).run_id)
    ∧ dictGet ([] : PyDict AuditRow) "rid" = none
    ∧ (save_run false (save_run false []
          { run_id := "rid", book := "Sl", chapter := 23, verses := [1],
            selected_modules := ["panorama"], success := true })
          { run_id := "rid", book := "Sl", chapter := 23, verses := [1],
            selected_modules := ["panorama"], success := true,
            hitl_status := some "pending" }).length
        = (save_run false []
            ({ run_id := "rid", book := "Sl", chapter := 23, verses := [1],
               selected_modules := ["panorama"], success := true } :
              AuditRow)).length :=
  ⟨rfl, rfl,
   (C8_audit_upsert []
      { run_id := "rid", book := "Sl", chapter := 23, verses := [1],
        selected_modules := ["panorama"], success := true }
      { run_id := "rid", book := "Sl", chapter := 23, verses := [1],
        selected_modules := ["panorama"], success := true,
        hitl_status := some "pending" } rfl rfl).1⟩

/-! ### C9 — the cache is advisory -/

/-- C9: a cache-read failure is indistinguishable from a miss (`None`,
no mutation); a hit increments `hit_count` by exactly one and returns
the stored text; a miss changes nothing; a cache-write failure returns
normally leaving the table untouched; and neither the write-failure flag
nor a read failure on an absent key changes `run_analysis`'s returned
result. -/
theorem C9_cache_advisory (db : PyDict CacheEntry) (k : String)
    (e : CacheEntry) :
    get_cached_analysis true db k = (db, none)
    ∧ (dictGet db k = none → get_cached_analysis false db k = (db, none))
    ∧ (∀ e0, dictGet db k = some e0 →
        get_cached_analysis false db k
          = (dictSet db k { e0 with hit_count := e0.hit_count + 1 },
             some e0.final_analysis))
    ∧ save_to_cache true db k e = db
    ∧ (∀ (env : GenEnv) (fl : RunFlags) (dbs : Dbs) (inp : AnalysisInput)
        (rid ca : String),
        (run_analysis env { fl with cacheWriteFail := true } dbs inp
            rid ca).2
          = (run_analysis env { fl with cacheWriteFail := false } dbs inp
              rid ca).2)
    ∧ (∀ (env : GenEnv) (fl : RunFlags) (dbs : Dbs) (inp : AnalysisInput)
        (rid ca : String),
        dictGet dbs.cache (generate_cache_key env.sha256hex inp.book
            inp.chapter inp.verses inp.selected_modules) = none →
        (run_analysis env { fl with cacheReadFail := true } dbs inp
            rid ca).2
          = (run_analysis env { fl with cacheReadFail := false } dbs inp
              rid ca).2) := by
  refine ⟨rfl, ?_, ?_, rfl, ?_, ?_⟩
  · intro h
    simp [get_cached_analysis, h]
  · intro e0 h
    simp [get_cached_analysis, h]
  · intro env fl dbs inp rid ca
    simp only [run_analysis]
    cases (get_cached_analysis fl.cacheReadFail dbs.cache
        (generate_cache_key env.sha256hex inp.book inp.chapter inp.verses
          inp.selected_modules)).2 with
    | some c => rfl
    | none =>
      cases runGraph env fl.hitlSaveFail fl.emailSmtpOk
          { dbs with cache := (get_cached_analysis fl.cacheReadFail
              dbs.cache (generate_cache_key env.sha256hex inp.book
                inp.chapter inp.verses inp.selected_modules)).1 }
          (prepare_agent_state inp rid ca) with
      | error e' => rfl
      | ok p =>
        by_cases hp : p.2.hitl_status = some "pending" <;>
          by_cases ht : pyTruthyStr p.2.final_analysis <;>
            simp [hp, ht]
  · intro env fl dbs inp rid ca hk
    have hget : ∀ b : Bool, get_cached_analysis b dbs.cache
        (generate_cache_key env.sha256hex inp.book inp.chapter inp.verses
          inp.selected_modules) = (dbs.cache, none) := by
      intro b
      cases b <;> simp [get_cached_analysis, hk]
    simp only [run_analysis, hget]

/-- C9 witness: a concrete hit increments the counter once and returns
the stored analysis. -/
theorem C9_cache_advisory_witness :
    dictGet [("k1", wCE)] "k1" = some wCE
    ∧ get_cached_analysis false [("k1", wCE)] "k1"
        = ([("k1", { wCE with hit_count := 5 })], some "cached txt") :=
  ⟨by decide,
   by
    have := (C9_cache_advisory [("k1", wCE)] "k1" wCE).2.2.1 wCE (by decide)
    simpa [dictSet, wCE] using this⟩

/-! ### C10 — an empty edited-content override is no override -/

/-- C10: Python truthiness makes an empty-string override behave exactly
like no override: `approve_review` with `""` equals `approve_review`
with `None` (status `approved`, no edited content stored), the resumed
synthesis falls back to the stored `validation_content`, and only a
non-empty override yields status `edited`. -/
theorem C10_empty_override (now : Nat) (db : PyDict ReviewRow)
    (run_id : String) :
    (∀ fail : Bool, approve_review fail now db run_id (some "")
        = approve_review fail now db run_id none)
    ∧ (∀ r, dictGet db run_id = some r → r.status = "pending" →
        dictGet (approve_review false now db run_id (some "")).1 run_id
          = some { r with status := "approved", reviewed_at := some now })
    ∧ (∀ (env : GenEnv) (af : Bool) (runs : PyDict AuditRow)
        (r : ReviewRow),
        run_synthesis_from_review env af runs r (some "")
          = run_synthesis_from_review env af runs r none
        ∧ (reconstruct_state_from_review r (some "")).validation_content
            = r.validation_content
        ∧ (reconstruct_state_from_review r (some "")).hitl_status
            = some "approved")
    ∧ (∀ (e : String) (r : ReviewRow), e ≠ "" →
        dictGet db run_id = some r → r.status = "pending" →
        dictGet (approve_review false now db run_id (some e)).1 run_id
          = some { r with status := "edited", edited_content := some e,
                          reviewed_at := some now }) := by
  refine ⟨?_, ?_, ?_, ?_⟩
  · intro fail
    rfl
  · intro r hd hp
    have : (approve_review false now db run_id (some "")).1
        = dictSet db run_id
            { r with status := "approved", reviewed_at := some now } := by
      simp [approve_review, hd, hp, pyTruthyStr]
    rw [this, dictGet_dictSet_self]
    simp [hd]
  · intro env af runs r
    exact ⟨rfl, rfl, rfl⟩
  · intro e r he hd hp
    have ht : pyTruthyStr (some e) = true := by simp [pyTruthyStr, he]
    have : (approve_review false now db run_id (some e)).1
        = dictSet db run_id
            { r with status := "edited", edited_content := some e,
                     reviewed_at := some now } := by
      simp [approve_review, hd, hp, ht]
    rw [this, dictGet_dictSet_self]
    simp [hd]

/-- C10 witness: approving the concrete pending review with an empty
override stores status `approved` and no edited content. -/
theorem C10_empty_override_witness :
    dictGet [("rid", wRev)] "rid" = some wRev
    ∧ wRev.status = "pending"
    ∧ dictGet (approve_review false 5 [("rid", wRev)] "rid" (some "")).1
        "rid"
      = some { wRev with status := "approved", reviewed_at := some 5 } :=
  ⟨by decide, by decide,
   (C10_empty_override 5 [("rid", wRev)] "rid").2.1 wRev (by decide)
     (by decide)⟩

/-! ### C4 — cache key normalization and injectivity -/

theorem char_toNat_ofNat {n : Nat} (h : n.isValidChar) :
    (Char.ofNat n).toNat = n := by
  simp [Char.ofNat, h, Char.toNat, Char.ofNatAux, UInt32.toNat,
    BitVec.toNat_ofNatLt]

theorem char_valid_range (c : Char) :
    c.toNat < 0xd800 ∨ (0xe000 ≤ c.toNat ∧ c.toNat < 0x110000) := by
  have h := c.valid
  simp only [UInt32.isValidChar, Nat.isValidChar] at h
  have he : c.toNat = c.val.toNat := rfl
  rw [he]
  rcases h with h | h
  · exact Or.inl h
  · exact Or.inr ⟨by omega, by omega⟩

theorem dropWhile_map {α β : Type} (p : β → Bool) (f : α → β)
    (l : List α) :
    (l.map f).dropWhile p = (l.dropWhile (fun c => p (f c))).map f := by
  induction l with
  | nil => rfl
  | cons a rest ih =>
    cases hp : p (f a) <;> simp [List.dropWhile_cons, hp, ih]

theorem dropWhile_append_all {α : Type} (p : α → Bool) (ws l : List α)
    (h : ∀ c ∈ ws, p c = true) :
    (ws ++ l).dropWhile p = l.dropWhile p := by
  induction ws with
  | nil => rfl
  | cons a rest ih =>
    have ha : p a = true := h a (by simp)
    simp only [List.cons_append, List.dropWhile_cons, ha, if_true]
    exact ih (fun c hc => h c (by simp [hc]))

theorem dropWhile_append_split {α : Type} (p : α → Bool) (a b : List α) :
    (a ++ b).dropWhile p
      = if (a.dropWhile p).isEmpty then b.dropWhile p
        else a.dropWhile p ++ b := by
  induction a with
  | nil => simp
  | cons x rest ih =>
    cases hx : p x <;>
      simp [List.dropWhile_cons, hx, ih]

theorem pyStripL_ws_left (ws l : List Char)
    (h : ∀ c ∈ ws, pyIsSpace c = true) :
    pyStripL (ws ++ l) = pyStripL l := by
  simp only [pyStripL, dropWhile_append_all pyIsSpace ws l h]

theorem pyStripL_ws_right (l ws : List Char)
    (h : ∀ c ∈ ws, pyIsSpace c = true) :
    pyStripL (l ++ ws) = pyStripL l := by
  simp only [pyStripL]
  rw [dropWhile_append_split]
  cases he : (l.dropWhile pyIsSpace).isEmpty
  · simp only [he, Bool.false_eq_true, if_false]
    rw [List.reverse_append,
      dropWhile_append_all pyIsSpace ws.reverse _
        (fun c hc => h c (List.mem_reverse.mp hc))]
  · simp only [he, if_true]
    have : ws.dropWhile pyIsSpace = [] :=
      List.dropWhile_eq_nil_iff.mpr (fun x hx => by simp [h x hx])
    rw [this]
    have hl : l.dropWhile pyIsSpace = [] := by
      cases hh : l.dropWhile pyIsSpace with
      | nil => rfl
      | cons y ys => rw [hh] at he; simp at he
    rw [hl]

theorem pyIsSpace_pyLowerChar (c : Char) :
    pyIsSpace (pyLowerChar c) = pyIsSpace c := by
  by_cases h : ('A' ≤ c ∧ c ≤ 'Z')
      ∨ (0xc0 ≤ c.toNat ∧ c.toNat ≤ 0xde ∧ c.toNat ≠ 0xd7)
  · have hr : (65 ≤ c.toNat ∧ c.toNat ≤ 90)
        ∨ (0xc0 ≤ c.toNat ∧ c.toNat ≤ 0xde) := by
      rcases h with ⟨h1, h2⟩ | ⟨h1, h2, h3⟩
      · exact Or.inl ⟨h1, h2⟩
      · exact Or.inr ⟨h1, h2⟩
    have hval : (c.toNat + 32).isValidChar := Or.inl (by omega)
    have hf : ∀ x : Nat,
        (65 ≤ x ∧ x ≤ 122) ∨ (0xc0 ≤ x ∧ x ≤ 0xfe) →
        decide (x ∈ [0x09, 0x0a, 0x0b, 0x0c, 0x0d,
          0x1c, 0x1d, 0x1e, 0x1f, 0x20, 0x85, 0xa0, 0x1680, 0x2000, 0x2001,
          0x2002, 0x2003, 0x2004, 0x2005, 0x2006, 0x2007, 0x2008, 0x2009,
          0x200a, 0x2028, 0x2029, 0x202f, 0x205f, 0x3000]) = false := by
      intro x hx
      simp only [List.mem_cons, List.not_mem_nil, or_false,
        decide_eq_false_iff_not]
      omega
    simp only [pyLowerChar, if_pos h, pyIsSpace, char_toNat_ofNat hval]
    rw [hf _ (by omega), hf _ (by omega)]
  · simp [pyLowerChar, if_neg h]

theorem pyStripL_pyLowerL_comm (l : List Char) :
    pyLowerL (pyStripL l) = pyStripL (pyLowerL l) := by
  have hp : (fun c => pyIsSpace (pyLowerChar c)) = pyIsSpace := by
    funext c
    exact pyIsSpace_pyLowerChar c
  show List.map pyLowerChar
      (((l.dropWhile pyIsSpace).reverse.dropWhile pyIsSpace).reverse)
    = (((l.map pyLowerChar).dropWhile pyIsSpace).reverse.dropWhile
        pyIsSpace).reverse
  rw [dropWhile_map, hp, ← List.map_reverse, dropWhile_map, hp,
    List.map_reverse]

theorem pySortInts_perm (v v' : List Int) (h : v.Perm v') :
    pySortInts v = pySortInts v' :=
  List.eq_of_perm_of_sorted
    ((List.perm_insertionSort _ v).trans
      (h.trans (List.perm_insertionSort _ v').symm))
    (List.sorted_insertionSort _ v) (List.sorted_insertionSort _ v')

theorem pySortStrs_perm (m m' : List String) (h : m.Perm m') :
    pySortStrs m = pySortStrs m' :=
  List.eq_of_perm_of_sorted
    ((List.perm_insertionSort _ m).trans
      (h.trans (List.perm_insertionSort _ m').symm))
    (List.sorted_insertionSort _ m) (List.sorted_insertionSort _ m')

theorem digitsToNat_append (a : List Char) (ch : Char) :
    digitsToNat (a ++ [ch]) = digitsToNat a * 10 + (ch.toNat - 48) := by
  simp [digitsToNat, List.foldl_append]

theorem decDigit_toNat (n : Nat) (h : n < 10) :
    (decDigit n).toNat = 48 + n :=
  char_toNat_ofNat (Or.inl (by omega))

theorem natReprAux_spec (fuel : Nat) :
    ∀ n, n < fuel →
      digitsToNat (natReprAux fuel n) = n
      ∧ natReprAux fuel n ≠ []
      ∧ ∀ ch ∈ natReprAux fuel n, 48 ≤ ch.toNat ∧ ch.toNat ≤ 57 := by
  induction fuel with
  | zero =>
    intro n h
    omega
  | succ fuel ih =>
    intro n h
    by_cases h10 : n < 10
    · refine ⟨?_, by simp [natReprAux, h10], ?_⟩
      · simp only [natReprAux, if_pos h10, digitsToNat, List.foldl_cons,
          List.foldl_nil]
        rw [decDigit_toNat n h10]
        omega
      · intro ch hch
        simp [natReprAux, h10] at hch
        subst hch
        rw [decDigit_toNat n h10]
        omega
    · have hd : n / 10 < fuel := by omega
      obtain ⟨ih1, _, ih3⟩ := ih (n / 10) hd
      refine ⟨?_, by simp [natReprAux, h10], ?_⟩
      · simp only [natReprAux, h10, if_false]
        rw [digitsToNat_append, ih1, decDigit_toNat _ (by omega)]
        omega
      · intro ch hch
        simp only [natReprAux, h10, if_false, List.mem_append,
          List.mem_singleton] at hch
        rcases hch with hch | hch
        · exact ih3 ch hch
        · subst hch
          rw [decDigit_toNat _ (by omega)]
          omega

theorem natRepr_spec (n : Nat) :
    digitsToNat (natRepr n) = n
    ∧ natRepr n ≠ []
    ∧ ∀ ch ∈ natRepr n, 48 ≤ ch.toNat ∧ ch.toNat ≤ 57 :=
  natReprAux_spec (n + 1) n (by omega)

theorem splitDigits_exact (ds rest : List Char)
    (hds : ∀ ch ∈ ds, 48 ≤ ch.toNat ∧ ch.toNat ≤ 57)
    (hrest : rest = [] ∨
      ∃ ch cs, rest = ch :: cs ∧ ¬(48 ≤ ch.toNat ∧ ch.toNat ≤ 57)) :
    splitDigits (ds ++ rest) = (ds, rest) := by
  induction ds with
  | nil =>
    rcases hrest with rfl | ⟨ch, cs, rfl, hc⟩
    · rfl
    · simp [splitDigits, hc]
  | cons d dtl ih =>
    have hd := hds d (by simp)
    simp only [List.cons_append, splitDigits, if_pos hd, List.append_eq]
    rw [ih (fun ch hch => hds ch (by simp [hch]))]

theorem readIntHead_intJson (c : Int) (rest : List Char)
    (hrest : rest = [] ∨
      ∃ ch cs, rest = ch :: cs ∧ ¬(48 ≤ ch.toNat ∧ ch.toNat ≤ 57)) :
    readIntHead (intJson c ++ rest) = some (c, rest) := by
  obtain ⟨hval, hne, hdig⟩ := natRepr_spec c.natAbs
  by_cases hneg : c < 0
  · simp only [intJson, if_pos hneg, List.cons_append, readIntHead,
      if_pos rfl]
    rw [splitDigits_exact _ _ hdig hrest]
    cases hds : natRepr c.natAbs with
    | nil => exact absurd hds hne
    | cons d dtl =>
      rw [hds] at hval
      simp only [if_true]
      show some (-(digitsToNat (d :: dtl) : Int), rest) = some (c, rest)
      rw [hval]
      simp only [Option.some.injEq, Prod.mk.injEq]
      exact ⟨by omega, trivial⟩
  · cases hds : natRepr c.natAbs with
    | nil => exact absurd hds hne
    | cons d dtl =>
      have hd : 48 ≤ d.toNat ∧ d.toNat ≤ 57 := hdig d (by simp [hds])
      have hdm : d ≠ '-' := by
        intro heq
        rw [heq, show ('-').toNat = 45 from by decide] at hd
        omega
      simp only [intJson, if_neg hneg, hds, List.cons_append, readIntHead,
        if_neg hdm]
      rw [show d :: (dtl ++ rest) = (d :: dtl) ++ rest from rfl,
        splitDigits_exact _ _ (fun ch hch => hdig ch (by simp [hds, hch]))
          hrest]
      rw [hds] at hval
      show some ((digitsToNat (d :: dtl) : Int), rest) = some (c, rest)
      rw [hval]
      simp only [Option.some.injEq, Prod.mk.injEq]
      exact ⟨by omega, trivial⟩

theorem hexVal_hexDigit (d : Nat) (h : d < 16) :
    hexVal (hexDigit d) = some d := by
  by_cases h10 : d < 10
  · have ht : (Char.ofNat (48 + d)).toNat = 48 + d :=
      char_toNat_ofNat (Or.inl (by omega))
    simp only [hexDigit, if_pos h10, hexVal, ht]
    rw [if_pos (by omega)]
    congr 1
    omega
  · have ht : (Char.ofNat (87 + d)).toNat = 87 + d :=
      char_toNat_ofNat (Or.inl (by omega))
    simp only [hexDigit, if_neg h10, hexVal, ht]
    rw [if_neg (by omega), if_pos (by omega)]
    congr 1
    omega

theorem readHex4_hex4 (n : Nat) (h : n < 0x10000) (rest : List Char) :
    readHex4 (hex4 n ++ rest) = some (n, rest) := by
  simp only [hex4, List.cons_append, List.nil_append, readHex4,
    hexVal_hexDigit (n / 4096 % 16) (by omega),
    hexVal_hexDigit (n / 256 % 16) (by omega),
    hexVal_hexDigit (n / 16 % 16) (by omega),
    hexVal_hexDigit (n % 16) (by omega)]
  simp only [Option.some.injEq, Prod.mk.injEq]
  exact ⟨by omega, trivial⟩

theorem jsonUnesc_bs (fuel : Nat) (rest : List Char) :
    jsonUnesc (fuel + 1) ('\\' :: rest)
      = match decodeEsc rest with
        | none => none
        | some (ch, rest2) =>
          (jsonUnesc fuel rest2).map (fun p => (ch :: p.1, p.2)) := rfl

theorem jsonUnesc_plain (fuel : Nat) (c : Char) (rest : List Char)
    (h1 : c ≠ '"') (h2 : c ≠ '\\') :
    jsonUnesc (fuel + 1) (c :: rest)
      = (jsonUnesc fuel rest).map (fun p => (c :: p.1, p.2)) := by
  show (if c = '"' then some ([], rest)
    else if c = '\\' then
      match decodeEsc rest with
      | none => none
      | some (ch, rest2) =>
        (jsonUnesc fuel rest2).map (fun p => (ch :: p.1, p.2))
    else (jsonUnesc fuel rest).map (fun p => (c :: p.1, p.2))) = _
  rw [if_neg h1, if_neg h2]

theorem decodeEsc_u (l : List Char) : decodeEsc ('u' :: l) = decodeU l :=
  rfl

theorem decodeU_hex4 (n : Nat) (h1 : n < 0x10000)
    (h2 : ¬(0xd800 ≤ n ∧ n ≤ 0xdbff)) (rest : List Char) :
    decodeU (hex4 n ++ rest) = some (Char.ofNat n, rest) := by
  simp only [decodeU, readHex4_hex4 n h1, if_neg h2]

theorem decodeU_surrogate (n : Nat) (h1 : 0x10000 ≤ n) (h2 : n < 0x110000)
    (rest : List Char) :
    decodeU (hex4 (0xd800 + (n - 0x10000) / 0x400)
        ++ '\\' :: 'u' :: (hex4 (0xdc00 + (n - 0x10000) % 0x400) ++ rest))
      = some (Char.ofNat n, rest) := by
  have ha : (0xd800 + (n - 0x10000) / 0x400) < 0x10000 := by omega
  have hb : (0xdc00 + (n - 0x10000) % 0x400) < 0x10000 := by omega
  rw [decodeU.eq_def, readHex4_hex4 _ ha]
  try dsimp only
  rw [if_pos (show 0xd800 ≤ 0xd800 + (n - 0x10000) / 0x400
      ∧ 0xd800 + (n - 0x10000) / 0x400 ≤ 0xdbff from by omega)]
  try dsimp only
  rw [if_pos (show ('\\' : Char) = '\\' ∧ ('u' : Char) = 'u'
      from ⟨rfl, rfl⟩)]
  rw [readHex4_hex4 _ hb]
  try dsimp only
  rw [if_pos (show 0xdc00 ≤ 0xdc00 + (n - 0x10000) % 0x400
      ∧ 0xdc00 + (n - 0x10000) % 0x400 ≤ 0xdfff from by omega)]
  have hc : 0x10000 + (0xd800 + (n - 0x10000) / 0x400 - 0xd800) * 0x400
      + (0xdc00 + (n - 0x10000) % 0x400 - 0xdc00) = n := by omega
  rw [hc]

theorem jsonUnesc_escChar (c : Char) (tail : List Char) (fuel : Nat) :
    jsonUnesc (fuel + 1) (jsonEscChar c ++ tail)
      = (jsonUnesc fuel tail).map (fun p => (c :: p.1, p.2)) := by
  by_cases h1 : c = '"'
  · subst h1; rfl
  by_cases h2 : c = '\\'
  · subst h2; rfl
  by_cases h3 : c = Char.ofNat 8
  · subst h3; rfl
  by_cases h4 : c = '\t'
  · subst h4; rfl
  by_cases h5 : c = '\n'
  · subst h5; rfl
  by_cases h6 : c = Char.ofNat 12
  · subst h6; rfl
  by_cases h7 : c = '\r'
  · subst h7; rfl
  by_cases h8 : c.toNat < 0x20
  · have hesc : jsonEscChar c = escU c.toNat := by
      simp [jsonEscChar, h1, h2, h3, h4, h5, h6, h7, h8]
    rw [hesc]
    simp only [escU, List.cons_append]
    rw [jsonUnesc_bs, decodeEsc_u,
      decodeU_hex4 c.toNat (by omega) (by omega) tail, Char.ofNat_toNat]
  by_cases h9 : c.toNat < 0x7f
  · have hesc : jsonEscChar c = [c] := by
      simp [jsonEscChar, h1, h2, h3, h4, h5, h6, h7, h8, h9]
    rw [hesc]
    simp only [List.cons_append, List.nil_append]
    exact jsonUnesc_plain fuel c tail h1 h2
  by_cases h10 : c.toNat ≤ 0xffff
  · have hesc : jsonEscChar c = escU c.toNat := by
      simp [jsonEscChar, h1, h2, h3, h4, h5, h6, h7, h8, h9, h10]
    have hsur : ¬(0xd800 ≤ c.toNat ∧ c.toNat ≤ 0xdbff) := by
      rcases char_valid_range c with h | h <;> omega
    rw [hesc]
    simp only [escU, List.cons_append]
    rw [jsonUnesc_bs, decodeEsc_u,
      decodeU_hex4 c.toNat (by omega) hsur tail, Char.ofNat_toNat]
  · have hesc : jsonEscChar c
        = escU (0xd800 + (c.toNat - 0x10000) / 0x400)
            ++ escU (0xdc00 + (c.toNat - 0x10000) % 0x400) := by
      simp [jsonEscChar, h1, h2, h3, h4, h5, h6, h7, h8, h9, h10]
    have hrange : c.toNat < 0x110000 := by
      rcases char_valid_range c with h | h <;> omega
    rw [hesc]
    simp only [escU, List.cons_append, List.append_assoc, List.nil_append]
    rw [jsonUnesc_bs, decodeEsc_u,
      decodeU_surrogate c.toNat (by omega) hrange tail, Char.ofNat_toNat]

theorem jsonUnesc_escStr (s rest : List Char) :
    ∀ fuel, s.length < fuel →
      jsonUnesc fuel (jsonEscStr s ++ '"' :: rest) = some (s, rest) := by
  induction s with
  | nil =>
    intro fuel h
    cases fuel with
    | zero => omega
    | succ f => rfl
  | cons c cs ih =>
    intro fuel h
    cases fuel with
    | zero => omega
    | succ f =>
      have he : jsonEscStr (c :: cs) ++ '"' :: rest
          = jsonEscChar c ++ (jsonEscStr cs ++ '"' :: rest) := by
        simp [jsonEscStr]
      rw [he, jsonUnesc_escChar, ih f (by simpa using Nat.lt_of_succ_lt_succ h)]
      rfl

theorem dropExact_append (p l : List Char) :
    dropExact p (p ++ l) = some l := by
  induction p with
  | nil => rfl
  | cons c rest ih => simp [dropExact, ih]

theorem jsonEscChar_length_pos (c : Char) :
    1 ≤ (jsonEscChar c).length := by
  unfold jsonEscChar
  repeat' split
  all_goals simp [escU, hex4]

theorem jsonEscStr_length_ge (s : List Char) :
    s.length ≤ (jsonEscStr s).length := by
  induction s with
  | nil => simp [jsonEscStr]
  | cons c cs ih =>
    have h1 := jsonEscChar_length_pos c
    have h2 : jsonEscStr (c :: cs) = jsonEscChar c ++ jsonEscStr cs := by
      simp [jsonEscStr]
    rw [h2]
    simp only [List.length_append, List.length_cons]
    omega

theorem parseBookChapter_payload (b : String) (c : Int) (v : List Int)
    (m : List String) :
    parseBookChapter (cacheKeyPayloadL b c v m)
      = some (cacheNormBook b, c) := by
  have hq : ("\", \"chapter\": " : String).data
      = '"' :: (", \"chapter\": " : String).data := rfl
  have hm : (", \"modules\": " : String).data
      = ',' :: (" \"modules\": " : String).data := rfl
  have hpl : cacheKeyPayloadL b c v m
      = ("\x7b\"book\": \"" : String).data
        ++ (jsonEscStr (cacheNormBook b)
          ++ '"' :: ((", \"chapter\": " : String).data
            ++ (intJson c
              ++ ',' :: ((" \"modules\": " : String).data
                ++ (jsonStrList (pySortStrs m)
                  ++ ((", \"verses\": " : String).data
                    ++ (jsonIntList (pySortInts v)
                      ++ ("\x7d" : String).data))))))) := by
    simp only [cacheKeyPayloadL, hq, hm, List.append_assoc,
      List.cons_append]
  rw [hpl]
  simp only [parseBookChapter, bind, Option.bind, dropExact_append]
  have hfuel : (cacheNormBook b).length
      < (jsonEscStr (cacheNormBook b)
          ++ '"' :: ((", \"chapter\": " : String).data
            ++ (intJson c
              ++ ',' :: ((" \"modules\": " : String).data
                ++ (jsonStrList (pySortStrs m)
                  ++ ((", \"verses\": " : String).data
                    ++ (jsonIntList (pySortInts v)
                      ++ ("\x7d" : String).data))))))).length := by
    have := jsonEscStr_length_ge (cacheNormBook b)
    simp only [List.length_append, List.length_cons]
    omega
  rw [jsonUnesc_escStr _ _ _ hfuel]
  simp only [bind, Option.bind, dropExact_append]
  rw [readIntHead_intJson c _
    (Or.inr ⟨',', _, rfl, by decide⟩)]
  rfl

/-- C4: `generate_cache_key` is invariant under any permutation of the
verses and modules lists and under letter-case changes (including the
accented range `À`–`ÿ` the API's book validator admits) or surrounding
whitespace in the book identifier; and two validator-admitted requests
that differ in a scalar field (normalized book, or chapter) always have
different canonical serializations, whatever their other fields (so
their keys collide only by SHA-256 collision). The injectivity conjunct
is stated over books drawn from the validator's alphabet (`bookCharOk`,
schemas.py line 52), the exact domain of books the service can hand to
`generate_cache_key` and on which the `str.lower()` embedding is
character-exact. -/
theorem C4_cache_key (sha256hex : String → String) :
    (∀ (b : String) (ch : Int) (v v' : List Int) (m m' : List String),
      v.Perm v' → m.Perm m' →
      generate_cache_key sha256hex b ch v m
        = generate_cache_key sha256hex b ch v' m')
    ∧ (∀ (b1 b2 : String) (ch : Int) (v : List Int) (m : List String),
      pyLowerL b1.data = pyLowerL b2.data →
      generate_cache_key sha256hex b1 ch v m
        = generate_cache_key sha256hex b2 ch v m)
    ∧ (∀ (b : String) (ch : Int) (v : List Int) (m : List String)
        (wsl wsr : List Char),
      (∀ x ∈ wsl, pyIsSpace x = true) → (∀ x ∈ wsr, pyIsSpace x = true) →
      generate_cache_key sha256hex ⟨wsl ++ b.data ++ wsr⟩ ch v m
        = generate_cache_key sha256hex b ch v m)
    ∧ (∀ (b1 b2 : String) (ch1 ch2 : Int) (v1 v2 : List Int)
        (m1 m2 : List String),
      (∀ x ∈ b1.data, bookCharOk x = true) →
      (∀ x ∈ b2.data, bookCharOk x = true) →
      (cacheNormBook b1 ≠ cacheNormBook b2 ∨ ch1 ≠ ch2) →
      cacheKeyPayloadL b1 ch1 v1 m1 ≠ cacheKeyPayloadL b2 ch2 v2 m2) := by
  refine ⟨?_, ?_, ?_, ?_⟩
  · intro b ch v v' m m' hv hm
    simp only [generate_cache_key, cacheKeyPayloadL,
      pySortInts_perm v v' hv, pySortStrs_perm m m' hm]
  · intro b1 b2 ch v m hl
    have hb : cacheNormBook b1 = cacheNormBook b2 := by
      unfold cacheNormBook
      rw [pyStripL_pyLowerL_comm, pyStripL_pyLowerL_comm, hl]
    simp only [generate_cache_key, cacheKeyPayloadL, hb]
  · intro b ch v m wsl wsr h1 h2
    have hb : cacheNormBook ⟨wsl ++ b.data ++ wsr⟩ = cacheNormBook b := by
      show pyLowerL (pyStripL (wsl ++ b.data ++ wsr))
        = pyLowerL (pyStripL b.data)
      rw [List.append_assoc, pyStripL_ws_left wsl _ h1,
        pyStripL_ws_right _ wsr h2]
    simp only [generate_cache_key, cacheKeyPayloadL, hb]
  · intro b1 b2 ch1 ch2 v1 v2 m1 m2 hok1 hok2 hdiff heq
    have h1 := parseBookChapter_payload b1 ch1 v1 m1
    have h2 := parseBookChapter_payload b2 ch2 v2 m2
    rw [heq, h2] at h1
    simp only [Option.some.injEq, Prod.mk.injEq] at h1
    rcases hdiff with hd | hd
    · exact hd h1.1.symm
    · exact hd h1.2.symm

/-- C4 witness: concrete keys are invariant under permuted verses and
modules, ASCII and accented book case changes (`Êx` vs `êx`) and
whitespace padding; concrete validator-admitted serializations differing
only in the chapter differ. -/
theorem C4_cache_key_witness :
    ([2, 1] : List Int).Perm [1, 2]
    ∧ (["b", "a"] : List String).Perm ["a", "b"]
    ∧ generate_cache_key id "Sl" 23 [2, 1] ["b", "a"]
        = generate_cache_key id "Sl" 23 [1, 2] ["a", "b"]
    ∧ pyLowerL ("SL" : String).data = pyLowerL ("sl" : String).data
    ∧ generate_cache_key id "SL" 23 [1, 2] ["a"]
        = generate_cache_key id "sl" 23 [1, 2] ["a"]
    ∧ pyLowerL ("Êx" : String).data = pyLowerL ("êx" : String).data
    ∧ generate_cache_key id "Êx" 14 [21] ["a"]
        = generate_cache_key id "êx" 14 [21] ["a"]
    ∧ generate_cache_key id ⟨[' '] ++ ("Sl" : String).data ++ [' ']⟩
        23 [1] ["a"]
        = generate_cache_key id "Sl" 23 [1] ["a"]
    ∧ (∀ x ∈ ("Sl" : String).data, bookCharOk x = true)
    ∧ (23 : Int) ≠ 24
    ∧ cacheKeyPayloadL "Sl" 23 [1] ["a"]
        ≠ cacheKeyPayloadL "Sl" 24 [1] ["a"] :=
  ⟨by decide, by decide,
   (C4_cache_key id).1 "Sl" 23 [2, 1] [1, 2] ["b", "a"] ["a", "b"]
     (by decide) (by decide),
   by decide,
   (C4_cache_key id).2.1 "SL" "sl" 23 [1, 2] ["a"] (by decide),
   by decide,
   (C4_cache_key id).2.1 "Êx" "êx" 14 [21] ["a"] (by decide),
   (C4_cache_key id).2.2.1 "Sl" 23 [1] ["a"] [' '] [' ']
     (by decide) (by decide),
   by decide,
   by decide,
   (C4_cache_key id).2.2.2 "Sl" "Sl" 23 24 [1] [1] ["a"] ["a"]
     (by decide) (by decide) (Or.inr (by decide))⟩

end TheoAgent
